import Mathlib

/-!
# Reference-frame conversion of the Stellarium Web Engine (src/frames.c)

A shallow embedding of `src/frames.c`.  A C `double` is an element of an
arbitrary carrier `α` with the arithmetic operators the code uses; everything
the sources take from outside `frames.c` without showing its body (libm, the
ERFA aberration and deflection formulas, the refraction model, the unit
constants) is gathered in one record, `Kernel`, over which every definition is
parametric.  A failed `assert` is an `Except.error` naming the assertion.

Statements that follow the control flow, the comparisons `== 0.0` and
`<= 0.0000000001` of the code among them, are proved for every carrier and
every `Kernel`: their hypotheses are the outcomes of the tests the code itself
evaluates.  A theorem about the value a call returns states as hypotheses that
the two NaN assertions of `convert_frame` pass.  Statements that need the laws
of arithmetic are proved over an ordered field; an equality of norms is stated
apart from the control flow, for the square roots that are exact (`SqrtAt`).

Three concrete interpretations serve the examples: exact rational arithmetic
(`ratKernel`), rational arithmetic with a NaN in which a division by zero is
NaN (`xnumKernel`), and the latter with a norm that underflows
(`xnumKernelFlush`).
-/

set_option linter.unusedSectionVars false

namespace SWE

/-! ## Data model -/

/-- A C array `double[3]`. -/
structure Vec3 (α : Type) where
  x : α
  y : α
  z : α
deriving DecidableEq, Repr

/-- A C array `double[4]`, the input of `convert_framev4`. -/
structure Vec4 (α : Type) where
  x : α
  y : α
  z : α
  w : α
deriving DecidableEq, Repr

/-- A rotation matrix, stored as its three rows `m[0]`, `m[1]`, `m[2]`. -/
structure Mat3 (α : Type) where
  r0 : Vec3 α
  r1 : Vec3 α
  r2 : Vec3 α
deriving DecidableEq, Repr

/-- A C array `double[2][3]`: position `pv[0]` and velocity `pv[1]`. -/
structure PV (α : Type) where
  p : Vec3 α
  v : Vec3 α
deriving DecidableEq, Repr

/-- The fields of ERFA's `eraASTROM` that `frames.c` reads. -/
structure EraASTROM (α : Type) where
  em : α
  eh : Vec3 α
  v : Vec3 α
  bm1 : α
  bpn : Mat3 α
  refa : α
  refb : α

/-- The fields of `struct observer` (observer.h) that `frames.c` reads. -/
structure Observer (α : Type) where
  eo : α
  astrom : EraASTROM α
  earth_pvb : PV α
  sun_pvb : PV α
  obs_pvb : PV α
  obs_pvg : PV α
  ro2v : Mat3 α
  ri2h : Mat3 α

/-- Everything `frames.c` calls or reads whose body is not in the sources:
libm (`sqrt`, `fabs`, `isnan`), the comparisons of `double` (`==`, `<=`), the
rotation helper `mat3_rz` of utils/vec.h, ERFA's `eraLdsun` and `eraAb`, the
refraction model, and the unit constants of the light-time factor. -/
structure Kernel (α : Type) where
  sqrt : α → α
  fabs : α → α
  isnan : α → Bool
  feq : α → α → Bool
  fle : α → α → Bool
  mat3_rz : α → Mat3 α → Mat3 α
  eraLdsun : Vec3 α → Vec3 α → α → Vec3 α
  eraAb : Vec3 α → Vec3 α → α → α → Vec3 α
  refraction : Vec3 α → α → α → Vec3 α
  DAU : α
  LIGHT_YEAR_IN_METER : α
  DJY : α

/-- The `assert` of `frames.c` that stopped the program. -/
inductive Abort where
  /-- line 39: `default: assert(0)` in `position_to_apparent` -/
  | apparent_origin
  /-- line 47: `assert(vec3_norm(out[0]) == 1.0)` -/
  | apparent_unit
  /-- line 112: `assert(0)` in `convert_frame_backward` -/
  | backward
  /-- line 124: `assert(dest < FRAME_NDC && origin < FRAME_NDC)` -/
  | ndc
  /-- line 126: `assert(!isnan(...))` on the copied input -/
  | nan_in
  /-- line 134: `assert(!isnan(...))` on the result -/
  | nan_out
  /-- line 146: the squared-norm check of `convert_framev4` -/
  | v4_unit
  /-- line 171: `default: assert(0)` in `position_to_astrometric` -/
  | astrometric_origin
  /-- line 190: the squared-norm check before deflection -/
  | astrom_unit_in
  /-- line 197: the squared-norm check after aberration -/
  | astrom_unit_out
deriving DecidableEq, Repr

/-! ## Frame and origin tags (frames.h) -/

def FRAME_ASTROM : Int := -1
def FRAME_ICRF : Int := 0
def FRAME_CIRS : Int := 1
def FRAME_JNOW : Int := 2
def FRAME_OBSERVED : Int := 3
def FRAME_VIEW : Int := 4
def FRAME_NDC : Int := 5
def FRAME_WINDOW : Int := 6

def ORIGIN_BARYCENTRIC : Int := 0
def ORIGIN_HELIOCENTRIC : Int := 1
def ORIGIN_GEOCENTRIC : Int := 2
def ORIGIN_OBSERVERCENTRIC : Int := 3

section Embedding

variable {α : Type} [Add α] [Sub α] [Mul α] [Div α] [Neg α] [Zero α] [One α]
  [OfScientific α]

/-! ## Vector helpers (utils/vec.h and ERFA) -/

/-- Modelled from the spec: utils/vec.h is not among the sources; `vec3_set`
stores three components. -/
def vec3_set (x y z : α) : Vec3 α := ⟨x, y, z⟩

/-- Modelled from the spec: utils/vec.h is not among the sources; `vec3_copy`
copies the first three components. -/
def vec3_copy (v : Vec3 α) : Vec3 α := v

/-- Modelled from the spec: utils/vec.h is not among the sources; the squared
Euclidean norm (the "squared-norm check" of the spec). -/
def vec3_norm2 (v : Vec3 α) : α := v.x * v.x + v.y * v.y + v.z * v.z

/-- Modelled from the spec: utils/vec.h is not among the sources; the
Euclidean norm `‖v‖`, the square root of `vec3_norm2`. -/
def vec3_norm (K : Kernel α) (v : Vec3 α) : α := K.sqrt (vec3_norm2 v)

/-- Modelled from the spec: utils/vec.h is not among the sources;
`vec3_mul(k, v, out)` rescales `v` by the scalar `k`. -/
def vec3_mul (k : α) (v : Vec3 α) : Vec3 α := ⟨v.x * k, v.y * k, v.z * k⟩

/-- Modelled from the spec: utils/vec.h is not among the sources;
`vec3_addk(a, b, k, out)` is `a + k b`. -/
def vec3_addk (a b : Vec3 α) (k : α) : Vec3 α :=
  ⟨a.x + b.x * k, a.y + b.y * k, a.z + b.z * k⟩

/-- Modelled from the spec: utils/vec.h is not among the sources;
`vec3_normalize` divides a vector by its norm ("normalize", "re-normalize to
unit length"). -/
def vec3_normalize (K : Kernel α) (v : Vec3 α) : Vec3 α :=
  vec3_mul (1 / vec3_norm K v) v

/-- Modelled from the spec: utils/vec.h is not among the sources; the
identity matrix. -/
def mat3_set_identity : Mat3 α := ⟨⟨1, 0, 0⟩, ⟨0, 1, 0⟩, ⟨0, 0, 1⟩⟩

/-- Modelled from the spec: utils/vec.h is not among the sources;
`mat3_mul_vec3` is the product of a matrix and a vector ("rotate by the
matrix"), in the column-major convention of the engine:
`out[i] = x m[0][i] + y m[1][i] + z m[2][i]`. -/
def mat3_mul_vec3 (m : Mat3 α) (v : Vec3 α) : Vec3 α :=
  ⟨v.x * m.r0.x + v.y * m.r1.x + v.z * m.r2.x,
   v.x * m.r0.y + v.y * m.r1.y + v.z * m.r2.y,
   v.x * m.r0.z + v.y * m.r1.z + v.z * m.r2.z⟩

/-- ERFA `eraCp`: copy a vector. -/
def eraCp (p : Vec3 α) : Vec3 α := p

/-- ERFA `eraCpv`: copy a position/velocity pair. -/
def eraCpv (pv : PV α) : PV α := pv

/-- ERFA `eraPpp`: `a + b`. -/
def eraPpp (a b : Vec3 α) : Vec3 α := ⟨a.x + b.x, a.y + b.y, a.z + b.z⟩

/-- ERFA `eraPmp`: `a - b`. -/
def eraPmp (a b : Vec3 α) : Vec3 α := ⟨a.x - b.x, a.y - b.y, a.z - b.z⟩

/-- ERFA `eraPvppv`: add two pv-vectors. -/
def eraPvppv (a b : PV α) : PV α := ⟨eraPpp a.p b.p, eraPpp a.v b.v⟩

/-- ERFA `eraPvmpv`: subtract two pv-vectors. -/
def eraPvmpv (a b : PV α) : PV α := ⟨eraPmp a.p b.p, eraPmp a.v b.v⟩

/-- ERFA `eraRxp`: `rp[j] = r[j][0] p[0] + r[j][1] p[1] + r[j][2] p[2]`. -/
def eraRxp (r : Mat3 α) (p : Vec3 α) : Vec3 α :=
  ⟨r.r0.x * p.x + r.r0.y * p.y + r.r0.z * p.z,
   r.r1.x * p.x + r.r1.y * p.y + r.r1.z * p.z,
   r.r2.x * p.x + r.r2.y * p.y + r.r2.z * p.z⟩

/-! ## frames.c -/

/-- The argument of the two NaN assertions: `out[0] + out[1] + out[2]`. -/
def nan_probe (v : Vec3 α) : α := v.x + v.y + v.z

/-- The unit-length assertion `fabs(vec3_norm2(v) - 1.0) <= 0.0000000001`
(lines 146, 190 and 197). -/
def unit_check (K : Kernel α) (v : Vec3 α) : Bool :=
  K.fle (K.fabs (vec3_norm2 v - 1)) 0.0000000001

/-- `correct_speed_of_light` (lines 12-15). -/
def correct_speed_of_light (K : Kernel α) (pv : PV α) : PV α :=
  let ldt := vec3_norm K pv.p * K.DAU / K.LIGHT_YEAR_IN_METER * K.DJY
  ⟨vec3_addk pv.p pv.v (-ldt), pv.v⟩

/-- `position_to_apparent` (lines 17-53). -/
def position_to_apparent (K : Kernel α) (obs : Observer α) (origin : Int)
    (at_inf : Bool) (inp : PV α) : Except Abort (PV α) :=
  let out := eraCpv inp
  if !at_inf then
    if origin = ORIGIN_BARYCENTRIC then
      .ok (correct_speed_of_light K (eraPvmpv out obs.obs_pvb))
    else if origin = ORIGIN_HELIOCENTRIC then
      .ok (correct_speed_of_light K
        (eraPvmpv (eraPvppv out obs.sun_pvb) obs.obs_pvb))
    else if origin = ORIGIN_GEOCENTRIC then
      .ok (correct_speed_of_light K (eraPvmpv out obs.obs_pvg))
    else
      .error .apparent_origin
  else
    if K.feq (vec3_norm K out.p) 1 then
      let p := K.eraLdsun out.p obs.astrom.eh obs.astrom.em
      let p := K.eraAb p obs.astrom.v obs.astrom.em obs.astrom.bm1
      .ok ⟨p, out.v⟩
    else
      .error .apparent_unit

/-- `astrometric_to_apparent` (lines 184-206). -/
def astrometric_to_apparent (K : Kernel α) (obs : Observer α) (inp : Vec3 α)
    (inf : Bool) : Except Abort (Vec3 α) :=
  let out := eraCp inp
  if inf then
    if unit_check K out then
      let out := K.eraLdsun out obs.astrom.eh obs.astrom.em
      let out := K.eraAb out obs.astrom.v obs.astrom.em obs.astrom.bm1
      if unit_check K out then .ok out else .error .astrom_unit_out
    else
      .error .astrom_unit_in
  else
    let out := eraPpp out obs.obs_pvb.p
    let out := eraPmp out obs.earth_pvb.p
    let dist := vec3_norm K out
    let out := vec3_mul (1 / dist) out
    let out := K.eraAb out obs.astrom.v obs.astrom.em obs.astrom.bm1
    .ok (vec3_mul dist out)

/-- `position_to_astrometric` (lines 151-182).  The `ORIGIN_OBSERVERCENTRIC`
case has no `break`: it runs into `default: assert(0)`. -/
def position_to_astrometric (K : Kernel α) (obs : Observer α) (origin : Int)
    (inp : PV α) : Except Abort (PV α) :=
  let out := eraCpv inp
  let reorigined : Except Abort (PV α) :=
    if origin = ORIGIN_BARYCENTRIC then
      .ok (eraPvmpv out obs.earth_pvb)
    else if origin = ORIGIN_HELIOCENTRIC then
      .ok (eraPvmpv (eraPvppv out obs.sun_pvb) obs.earth_pvb)
    else if origin = ORIGIN_GEOCENTRIC then
      .ok out
    else if origin = ORIGIN_OBSERVERCENTRIC then
      let _out := eraPvmpv (eraPvppv out obs.obs_pvb) obs.earth_pvb
      .error .astrometric_origin
    else
      .error .astrometric_origin
  match reorigined with
  | .error e => .error e
  | .ok out =>
    let tmp := eraCp out.v
    let out : PV α := ⟨out.p, eraPpp out.v obs.earth_pvb.v⟩
    let out := correct_speed_of_light K out
    .ok ⟨out.p, eraCp tmp⟩

/-- The CIRS to OBSERVED stage of `convert_frame_forward` (lines 85-101);
`none` is the early `return` of line 95 with `p` set to the null vector. -/
def observed_stage (K : Kernel α) (obs : Observer α) (at_inf : Bool)
    (p : Vec3 α) : Option (Vec3 α) :=
  let p := mat3_mul_vec3 obs.ri2h p
  if at_inf then
    let p := K.refraction p obs.astrom.refa obs.astrom.refb
    some (vec3_normalize K p)
  else
    let dist := vec3_norm K p
    if K.feq dist 0 then
      none
    else
      let p := vec3_mul (1 / dist) p
      let p := K.refraction p obs.astrom.refa obs.astrom.refb
      let p := vec3_normalize K p
      some (vec3_mul dist p)

/-- The stages of `convert_frame_forward` after the astrometric step
(lines 63-106), none of which can abort: ICRS to CIRS, the JNow exit, CIRS
to OBSERVED, OBSERVED to VIEW. -/
def forward_stages (K : Kernel α) (obs : Observer α)
    (origin dest : Int) (at_inf : Bool) (p : Vec3 α) : Vec3 α :=
  let p := if origin < FRAME_CIRS ∧ dest ≥ FRAME_CIRS
    then eraRxp obs.astrom.bpn p else p
  if dest = FRAME_JNOW then
    let mat := K.mat3_rz (-obs.eo) mat3_set_identity
    mat3_mul_vec3 mat p
  else
    let staged : Option (Vec3 α) :=
      if origin < FRAME_OBSERVED ∧ dest ≥ FRAME_OBSERVED
      then observed_stage K obs at_inf p else some p
    match staged with
    | none => vec3_set 0 0 0
    | some p =>
      if origin < FRAME_VIEW ∧ dest ≥ FRAME_VIEW
      then mat3_mul_vec3 obs.ro2v p else p

/-- `convert_frame_forward` (lines 55-107): the astrometric step of lines
60-62, which can abort inside `astrometric_to_apparent`, then the stages. -/
def convert_frame_forward (K : Kernel α) (obs : Observer α)
    (origin dest : Int) (at_inf : Bool) (p : Vec3 α) : Except Abort (Vec3 α) :=
  match (if origin = FRAME_ASTROM then astrometric_to_apparent K obs p at_inf
         else .ok p) with
  | .error e => .error e
  | .ok p => .ok (forward_stages K obs origin dest at_inf p)

/-- `convert_frame_backward` (lines 109-113): `assert(0)`. -/
def convert_frame_backward (_obs : Observer α) (_origin _dest : Int)
    (_p : Vec3 α) : Except Abort (Vec3 α) :=
  .error .backward

/-- `convert_frame` (lines 116-136).  `core` is the observer of the engine,
used when the caller passes `NULL`; the result pairs the returned `int` with
the written `out`. -/
def convert_frame (K : Kernel α) (core : Observer α) (obs : Option (Observer α))
    (origin dest : Int) (at_inf : Bool) (inp : Vec3 α) :
    Except Abort (Int × Vec3 α) :=
  let obs := obs.getD core
  if dest < FRAME_NDC ∧ origin < FRAME_NDC then
    let out := vec3_copy inp
    if K.isnan (nan_probe out) then .error .nan_in
    else
      let moved : Except Abort (Vec3 α) :=
        if dest > origin then convert_frame_forward K obs origin dest at_inf out
        else if dest < origin then convert_frame_backward obs origin dest out
        else .ok out
      match moved with
      | .error e => .error e
      | .ok out =>
        if K.isnan (nan_probe out) then .error .nan_out else .ok (0, out)
  else
    .error .ndc

/-- `convert_framev4` (lines 139-149); `in` is read as a 3-vector through
its first three components. -/
def convert_framev4 (K : Kernel α) (core : Observer α)
    (obs : Option (Observer α)) (origin dest : Int) (inp : Vec4 α) :
    Except Abort (Int × Vec3 α) :=
  let in3 : Vec3 α := ⟨inp.x, inp.y, inp.z⟩
  if K.feq inp.w 1 then
    convert_frame K core obs origin dest false in3
  else
    if unit_check K in3 then
      convert_frame K core obs origin dest true in3
    else
      .error .v4_unit

end Embedding

/-! ## Exact arithmetic -/

/-- The interpretation computes exactly in an ordered field: `==`, `<=` and
`fabs` are those of the field and no value is NaN.  (Nothing is asked of
`sqrt` here; see `SqrtAt`.) -/
structure Kernel.Exact {α : Type} [LinearOrderedField α] (K : Kernel α) :
    Prop where
  feq : ∀ a b, K.feq a b = true ↔ a = b
  fle : ∀ a b, K.fle a b = true ↔ a ≤ b
  fabs : ∀ a, K.fabs a = |a|
  isnan : ∀ a, K.isnan a = false

/-- The square root the interpretation takes of `x` is exact. -/
def SqrtAt {α : Type} [LinearOrderedField α] (K : Kernel α) (x : α) : Prop :=
  0 ≤ K.sqrt x ∧ K.sqrt x * K.sqrt x = x

/-- The rows of `m` are orthonormal, as those of every rotation matrix are. -/
def RowsOrthonormal {α : Type} [LinearOrderedField α] (m : Mat3 α) : Prop :=
  m.r0.x * m.r0.x + m.r0.y * m.r0.y + m.r0.z * m.r0.z = 1 ∧
  m.r1.x * m.r1.x + m.r1.y * m.r1.y + m.r1.z * m.r1.z = 1 ∧
  m.r2.x * m.r2.x + m.r2.y * m.r2.y + m.r2.z * m.r2.z = 1 ∧
  m.r0.x * m.r1.x + m.r0.y * m.r1.y + m.r0.z * m.r1.z = 0 ∧
  m.r0.x * m.r2.x + m.r0.y * m.r2.y + m.r0.z * m.r2.z = 0 ∧
  m.r1.x * m.r2.x + m.r1.y * m.r2.y + m.r1.z * m.r2.z = 0

/-! ## The light-time formula in the words of the specification -/

/-- The factor `k = DAU / LIGHT_YEAR_IN_METER * DJY` of the light-time
correction. -/
def spec_light_time_factor {α : Type} [Mul α] [Div α] (K : Kernel α) : α :=
  K.DAU / K.LIGHT_YEAR_IN_METER * K.DJY

/-- The position `q - k ‖q‖ w`: the position `q` corrected for the light time
over the distance `‖q‖` with the velocity `w`. -/
def spec_light_time_position {α : Type} [Add α] [Sub α] [Mul α] [Div α]
    (K : Kernel α) (q w : Vec3 α) : Vec3 α :=
  eraPmp q (vec3_mul (spec_light_time_factor K * vec3_norm K q) w)

/-- Solar deflection, then observer aberration, applied to a direction:
`aberration(deflection(v))`. -/
def spec_deflect_then_aberrate {α : Type} (K : Kernel α) (obs : Observer α)
    (v : Vec3 α) : Vec3 α :=
  K.eraAb (K.eraLdsun v obs.astrom.eh obs.astrom.em) obs.astrom.v obs.astrom.em
    obs.astrom.bm1

/-- A rational square root: exact on the squares of rationals, rounded down
on numerator and denominator elsewhere. -/
def ratSqrt (q : ℚ) : ℚ :=
  if q < 0 then 0 else (Nat.sqrt q.num.toNat : ℚ) / (Nat.sqrt q.den : ℚ)

/-- Rotation about the z axis applied to the rows of `m`, with the cosine and
sine replaced by their Taylor polynomials of degree two. -/
def ratRz (a : ℚ) (m : Mat3 ℚ) : Mat3 ℚ :=
  let c := 1 - a * a / 2
  let s := a
  let row (r : Vec3 ℚ) : Vec3 ℚ := ⟨r.x * c - r.y * s, r.x * s + r.y * c, r.z⟩
  ⟨row m.r0, row m.r1, row m.r2⟩

/-- Exact rational arithmetic without NaN, an observer at rest (no
aberration), no deflection, and a refraction that lifts the third component
by `refa + refb`. -/
def ratKernel : Kernel ℚ where
  sqrt := ratSqrt
  fabs := fun a => |a|
  isnan := fun _ => false
  feq := fun a b => decide (a = b)
  fle := fun a b => decide (a ≤ b)
  mat3_rz := ratRz
  eraLdsun := fun p _ _ => p
  eraAb := fun p _ _ _ => p
  refraction := fun p a b => ⟨p.x, p.y, p.z + (a + b)⟩
  DAU := 149597870700
  LIGHT_YEAR_IN_METER := 9460730472580800
  DJY := 1461 / 4

/-- An observer with quarter-turn rotation matrices, standing one unit away
from the centre of the Earth along the second axis. -/
def ratObserver : Observer ℚ where
  eo := 0
  astrom :=
    { em := 1, eh := ⟨1, 0, 0⟩, v := ⟨0, 0, 0⟩, bm1 := 1,
      bpn := ⟨⟨0, 1, 0⟩, ⟨-1, 0, 0⟩, ⟨0, 0, 1⟩⟩, refa := 0, refb := 0 }
  earth_pvb := ⟨⟨2/5, 4/5, 7/20⟩, ⟨-3/200, 3/500, 1/400⟩⟩
  sun_pvb := ⟨⟨0, 1/200, 1/400⟩, ⟨0, 0, 0⟩⟩
  obs_pvb := ⟨⟨2/5, 9/5, 7/20⟩, ⟨-3/200, 7/1000, 1/400⟩⟩
  obs_pvg := ⟨⟨0, 0, 0⟩, ⟨0, 1/1000, 0⟩⟩
  ro2v := ⟨⟨1, 0, 0⟩, ⟨0, 0, 1⟩, ⟨0, -1, 0⟩⟩
  ri2h := ⟨⟨0, 0, 1⟩, ⟨1, 0, 0⟩, ⟨0, 1, 0⟩⟩

/-- The observer `ratObserver` under an atmosphere: the refraction
coefficients add up to 9/10. -/
def ratObserverAir : Observer ℚ :=
  { ratObserver with
    astrom := { ratObserver.astrom with refa := 1 / 2, refb := 2 / 5 } }

/-- The interpretation `ratKernel` with an aberration that exchanges the
first two components of the direction. -/
def ratKernelSwap : Kernel ℚ :=
  { ratKernel with eraAb := fun p _ _ _ => ⟨p.y, p.x, p.z⟩ }

/-- A `double` that is a rational number or NaN; a result that is not finite
(a division by zero, the square root of a negative number) is NaN. -/
inductive XNum where
  | nan
  | num (q : ℚ)
deriving DecidableEq

/-- Addition; NaN is absorbing. -/
def XNum.add : XNum → XNum → XNum
  | .num x, .num y => .num (x + y)
  | _, _ => .nan

/-- Subtraction; NaN is absorbing. -/
def XNum.sub : XNum → XNum → XNum
  | .num x, .num y => .num (x - y)
  | _, _ => .nan

/-- Multiplication; NaN is absorbing. -/
def XNum.mul : XNum → XNum → XNum
  | .num x, .num y => .num (x * y)
  | _, _ => .nan

/-- Division; NaN is absorbing and a division by zero is NaN. -/
def XNum.div : XNum → XNum → XNum
  | .num x, .num y => if y = 0 then .nan else .num (x / y)
  | _, _ => .nan

/-- Opposite. -/
def XNum.neg : XNum → XNum
  | .num x => .num (-x)
  | .nan => .nan

instance : Add XNum := ⟨XNum.add⟩

instance : Sub XNum := ⟨XNum.sub⟩

instance : Mul XNum := ⟨XNum.mul⟩

instance : Div XNum := ⟨XNum.div⟩

instance : Neg XNum := ⟨XNum.neg⟩

instance : Zero XNum := ⟨.num 0⟩

instance : One XNum := ⟨.num 1⟩

instance : OfScientific XNum :=
  ⟨fun m s e => .num (OfScientific.ofScientific m s e)⟩

/-- A rational vector as a vector of `XNum`. -/
def XNum.ofVec (v : Vec3 ℚ) : Vec3 XNum := ⟨.num v.x, .num v.y, .num v.z⟩

/-- A rational matrix as a matrix of `XNum`. -/
def XNum.ofMat (m : Mat3 ℚ) : Mat3 XNum :=
  ⟨XNum.ofVec m.r0, XNum.ofVec m.r1, XNum.ofVec m.r2⟩

/-- A rational pv as a pv of `XNum`. -/
def XNum.ofPV (q : PV ℚ) : PV XNum := ⟨XNum.ofVec q.p, XNum.ofVec q.v⟩

/-- The interpretation `ratKernel` carried to `XNum`: `isnan` recognises NaN,
comparisons with NaN are false. -/
def xnumKernel : Kernel XNum where
  sqrt := fun a => match a with
    | .num q => if q < 0 then .nan else .num (ratSqrt q)
    | .nan => .nan
  fabs := fun a => match a with
    | .num q => .num |q|
    | .nan => .nan
  isnan := fun a => match a with
    | .num _ => false
    | .nan => true
  feq := fun a b => match a, b with
    | .num x, .num y => decide (x = y)
    | _, _ => false
  fle := fun a b => match a, b with
    | .num x, .num y => decide (x ≤ y)
    | _, _ => false
  mat3_rz := fun a m =>
    let c := 1 - a * a / .num 2
    let s := a
    let row (r : Vec3 XNum) : Vec3 XNum :=
      ⟨r.x * c - r.y * s, r.x * s + r.y * c, r.z⟩
    ⟨row m.r0, row m.r1, row m.r2⟩
  eraLdsun := fun p _ _ => p
  eraAb := fun p _ _ _ => p
  refraction := fun p a b => ⟨p.x, p.y, p.z + (a + b)⟩
  DAU := .num 149597870700
  LIGHT_YEAR_IN_METER := .num 9460730472580800
  DJY := .num (1461 / 4)

/-- The observer `ratObserver` carried to `XNum`. -/
def xnumObserver : Observer XNum where
  eo := .num ratObserver.eo
  astrom :=
    { em := .num ratObserver.astrom.em,
      eh := XNum.ofVec ratObserver.astrom.eh,
      v := XNum.ofVec ratObserver.astrom.v,
      bm1 := .num ratObserver.astrom.bm1,
      bpn := XNum.ofMat ratObserver.astrom.bpn,
      refa := .num ratObserver.astrom.refa,
      refb := .num ratObserver.astrom.refb }
  earth_pvb := XNum.ofPV ratObserver.earth_pvb
  sun_pvb := XNum.ofPV ratObserver.sun_pvb
  obs_pvb := XNum.ofPV ratObserver.obs_pvb
  obs_pvg := XNum.ofPV ratObserver.obs_pvg
  ro2v := XNum.ofMat ratObserver.ro2v
  ri2h := XNum.ofMat ratObserver.ri2h

/-- The interpretation `xnumKernel` with the underflow of double arithmetic
in the norm: a squared norm below `2^-1075` is no `double`, the arithmetic
that produces it rounds it to 0, and its square root is 0. -/
def xnumKernelFlush : Kernel XNum :=
  { xnumKernel with
    sqrt := fun a => match a with
      | .num q =>
        if q < 0 then .nan
        else if q < 1 / 2 ^ 1075 then .num 0
        else .num (ratSqrt q)
      | .nan => .nan }

/-- The observer `xnumObserver` with the centre of the Earth at the
barycentre and the observer one unit away along the second axis. -/
def xnumObserverAxis : Observer XNum :=
  { xnumObserver with
    earth_pvb := XNum.ofPV ⟨⟨0, 0, 0⟩, ⟨0, 0, 0⟩⟩,
    obs_pvb := XNum.ofPV ⟨⟨0, 1, 0⟩, ⟨0, 0, 0⟩⟩ }

/-- The rational square root is exact on squares. -/
theorem ratSqrt_mul_self (q : ℚ) (hq : 0 ≤ q) : ratSqrt (q * q) = q := by
  have h0 : ¬ (q * q < 0) := not_lt.mpr (mul_self_nonneg q)
  have hn : 0 ≤ q.num := Rat.num_nonneg.mpr hq
  obtain ⟨n, hn'⟩ := Int.eq_ofNat_of_zero_le hn
  simp only [ratSqrt, h0, if_false, Rat.mul_self_num, Rat.mul_self_den, hn']
  have : ((n : ℤ) * (n : ℤ)).toNat = n * n := by
    rw [← Int.natCast_mul]; exact Int.toNat_natCast _
  rw [this, Nat.sqrt_eq, Nat.sqrt_eq]
  have h2 : (n : ℚ) = ((q.num : ℤ) : ℚ) := by rw [hn']; simp
  rw [h2]
  exact Rat.num_div_den q

theorem ratSqrt_zero : ratSqrt 0 = 0 := by
  simpa using ratSqrt_mul_self 0 le_rfl

theorem ratSqrt_one : ratSqrt 1 = 1 := by
  simpa using ratSqrt_mul_self 1 zero_le_one

theorem ratSqrt_twentyfive : ratSqrt 25 = 5 := by
  have h := ratSqrt_mul_self 5 (by norm_num)
  norm_num at h
  exact h

/-- The rational interpretation computes exactly. -/
theorem ratKernel_exact : ratKernel.Exact where
  feq := fun a b => by simp [ratKernel]
  fle := fun a b => by simp [ratKernel]
  fabs := fun a => rfl
  isnan := fun a => rfl

/-! ### The interpretation with NaN -/

theorem XNum.zero_def : (0 : XNum) = .num 0 := rfl

theorem XNum.one_def : (1 : XNum) = .num 1 := rfl

theorem XNum.num_add (a b : ℚ) : XNum.num a + XNum.num b = .num (a + b) := rfl

theorem XNum.num_sub (a b : ℚ) : XNum.num a - XNum.num b = .num (a - b) := rfl

theorem XNum.num_mul (a b : ℚ) : XNum.num a * XNum.num b = .num (a * b) := rfl

theorem XNum.num_div (a b : ℚ) :
    XNum.num a / XNum.num b = if b = 0 then .nan else .num (a / b) := rfl

theorem XNum.nan_mul (a : XNum) : XNum.nan * a = .nan := by
  cases a <;> rfl

theorem XNum.mul_nan (a : XNum) : a * XNum.nan = .nan := by
  cases a <;> rfl

/-! ### Which assertions can fail -/

section Generic

variable {α : Type} [Add α] [Sub α] [Mul α] [Div α] [Neg α] [Zero α] [One α]
  [OfScientific α]

/-- The only assertions `astrometric_to_apparent` can fail are its own two. -/
theorem astrometric_to_apparent_error (K : Kernel α) (obs : Observer α)
    (p : Vec3 α) (f : Bool) (e : Abort)
    (h : astrometric_to_apparent K obs p f = .error e) :
    e = .astrom_unit_in ∨ e = .astrom_unit_out := by
  unfold astrometric_to_apparent at h
  simp only [eraCp] at h
  split at h
  · split at h
    · split at h
      · cases h
      · cases h; exact Or.inr rfl
    · cases h; exact Or.inl rfl
  · cases h

/-- The forward path aborts only inside `astrometric_to_apparent`. -/
theorem convert_frame_forward_error (K : Kernel α) (obs : Observer α)
    (origin dest : Int) (f : Bool) (p : Vec3 α) (e : Abort)
    (h : convert_frame_forward K obs origin dest f p = .error e) :
    e = .astrom_unit_in ∨ e = .astrom_unit_out := by
  unfold convert_frame_forward at h
  split at h
  · rename_i e1 he
    cases h
    split at he
    · exact astrometric_to_apparent_error K obs p f _ he
    · cases he
  · cases h

/-- Off the astrometric origin the forward path is the stages alone. -/
theorem convert_frame_forward_of_ne (K : Kernel α) (obs : Observer α)
    (origin dest : Int) (f : Bool) (p : Vec3 α) (h : origin ≠ FRAME_ASTROM) :
    convert_frame_forward K obs origin dest f p
      = .ok (forward_stages K obs origin dest f p) := by
  simp [convert_frame_forward, h]

/-- The assertions `convert_frame` can fail; the one of
`convert_frame_backward` only when `dest < origin`. -/
theorem convert_frame_error (K : Kernel α) (core : Observer α)
    (obs : Option (Observer α)) (origin dest : Int) (f : Bool) (v : Vec3 α)
    (e : Abort) (h : convert_frame K core obs origin dest f v = .error e) :
    e = .ndc ∨ e = .nan_in ∨ e = .nan_out ∨ e = .astrom_unit_in ∨
      e = .astrom_unit_out ∨ (e = .backward ∧ dest < origin) := by
  unfold convert_frame at h
  simp only [vec3_copy] at h
  split at h
  · split at h
    · cases h; simp
    · split at h
      · rename_i e1 he
        cases h
        split at he
        · rcases convert_frame_forward_error K _ _ _ _ _ _ he with h | h <;>
            simp [h]
        · split at he
          · rename_i hlt
            simp only [convert_frame_backward] at he
            cases he
            simp [hlt]
          · cases he
      · split at h
        · cases h; simp
        · cases h
  · cases h; simp

/-- From CIRS to Observed the call checks the input, runs the stages and
checks the result. -/
theorem convert_frame_cirs_observed (K : Kernel α) (core : Observer α)
    (obs : Option (Observer α)) (f : Bool) (w : Vec3 α)
    (hw : K.isnan (nan_probe w) = false) :
    convert_frame K core obs FRAME_CIRS FRAME_OBSERVED f w
      = if K.isnan (nan_probe (forward_stages K (obs.getD core) FRAME_CIRS
            FRAME_OBSERVED f w)) = true
        then .error .nan_out
        else .ok (0, forward_stages K (obs.getD core) FRAME_CIRS
            FRAME_OBSERVED f w) := by
  simp [convert_frame, convert_frame_forward, FRAME_CIRS, FRAME_OBSERVED,
    FRAME_NDC, FRAME_ASTROM, vec3_copy, hw]

end Generic

/-! ### The claims -/

section Generic

variable {α : Type} [Add α] [Sub α] [Mul α] [Div α] [Neg α] [Zero α] [One α]
  [OfScientific α]

/-- C1. Converting from a frame below NDC to itself returns 0 and writes the
input unchanged, for every observer and flag, whenever the input passes the
NaN assertion of the code (`isnan(in[0] + in[1] + in[2])` is false). -/
theorem C1_convert_frame_identity (K : Kernel α) (core : Observer α)
    (obs : Option (Observer α)) (F : Int) (at_inf : Bool) (v : Vec3 α)
    (hF : F < FRAME_NDC) (hv : K.isnan (nan_probe v) = false) :
    convert_frame K core obs F F at_inf v = .ok (0, v) := by
  simp [convert_frame, hF, vec3_copy, hv]

end Generic

/-- Witness of C1: the JNow to JNow conversion of `(1, 2, 3)`. -/
theorem C1_convert_frame_identity_witness :
    (FRAME_JNOW < FRAME_NDC ∧ ratKernel.isnan (nan_probe (⟨1, 2, 3⟩ : Vec3 ℚ)) = false) ∧
    convert_frame ratKernel ratObserver none FRAME_JNOW FRAME_JNOW true ⟨1, 2, 3⟩
      = .ok (0, ⟨1, 2, 3⟩) :=
  ⟨⟨by decide, rfl⟩,
   C1_convert_frame_identity ratKernel ratObserver none FRAME_JNOW true ⟨1, 2, 3⟩
     (by decide) rfl⟩

section Generic
variable {α : Type} [Add α] [Sub α] [Mul α] [Div α] [Neg α] [Zero α] [One α]
  [OfScientific α]

/-- C2. A call with `dest < origin` (both below NDC) never returns a result,
whatever the flag and the input; when the input passes the input NaN assertion
the failure is the `assert(0)` of `convert_frame_backward` (a NaN input fails
one assertion earlier).  With `origin ≤ dest` that assertion is never the one
that fails. -/
theorem C2_backward_is_fatal (K : Kernel α) (core : Observer α)
    (obs : Option (Observer α)) (origin dest : Int) (at_inf : Bool)
    (v : Vec3 α) (ho : origin < FRAME_NDC) (hd : dest < FRAME_NDC) :
    (dest < origin →
      (∀ r, convert_frame K core obs origin dest at_inf v ≠ .ok r) ∧
      (K.isnan (nan_probe v) = false →
        convert_frame K core obs origin dest at_inf v = .error .backward)) ∧
    (origin ≤ dest →
      convert_frame K core obs origin dest at_inf v ≠ .error .backward) := by
  refine ⟨fun hlt => ⟨fun r => ?_, fun hv => ?_⟩, fun hle hb => ?_⟩
  · have h1 : ¬ dest > origin := by omega
    cases hn : K.isnan (nan_probe v) <;>
      simp [convert_frame, ho, hd, vec3_copy, hn, h1, hlt, convert_frame_backward]
  · have h1 : ¬ dest > origin := by omega
    simp [convert_frame, ho, hd, vec3_copy, hv, h1, hlt, convert_frame_backward]
  · rcases convert_frame_error K _ _ _ _ _ _ _ hb with h | h | h | h | h | h
    · cases h
    · cases h
    · cases h
    · cases h
    · cases h
    · omega

/-- C3. A call with NDC or Window as origin or destination fails the first
assertion, before the input is copied and before the identity shortcut, so
also for `origin = dest = NDC`. -/
theorem C3_ndc_is_fatal (K : Kernel α) (core : Observer α)
    (obs : Option (Observer α)) (origin dest : Int) (at_inf : Bool)
    (v : Vec3 α) (h : FRAME_NDC ≤ origin ∨ FRAME_NDC ≤ dest) :
    convert_frame K core obs origin dest at_inf v = .error .ndc := by
  have : ¬ (dest < FRAME_NDC ∧ origin < FRAME_NDC) := by omega
  simp [convert_frame, this]

end Generic

/-- Witness of C2: View to CIRS aborts in `convert_frame_backward`. -/
theorem C2_backward_is_fatal_witness :
    (FRAME_VIEW < FRAME_NDC ∧ FRAME_CIRS < FRAME_NDC ∧ FRAME_CIRS < FRAME_VIEW ∧
      ratKernel.isnan (nan_probe (⟨1, 2, 3⟩ : Vec3 ℚ)) = false) ∧
    convert_frame ratKernel ratObserver none FRAME_VIEW FRAME_CIRS false ⟨1, 2, 3⟩
      = .error .backward :=
  ⟨⟨by decide, by decide, by decide, rfl⟩,
   ((C2_backward_is_fatal ratKernel ratObserver none FRAME_VIEW FRAME_CIRS false
      ⟨1, 2, 3⟩ (by decide) (by decide)).1 (by decide)).2 rfl⟩

/-- Witness of C3: the NDC to NDC call. -/
theorem C3_ndc_is_fatal_witness :
    (FRAME_NDC ≤ FRAME_NDC ∨ FRAME_NDC ≤ FRAME_NDC) ∧
    convert_frame ratKernel ratObserver none FRAME_NDC FRAME_NDC true ⟨1, 0, 0⟩
      = .error .ndc :=
  ⟨Or.inl le_rfl,
   C3_ndc_is_fatal ratKernel ratObserver none FRAME_NDC FRAME_NDC true ⟨1, 0, 0⟩
     (Or.inl le_rfl)⟩

/-- C4. The code reads the flag the other way round: on `in[3] = 1.0` with
the non-unit vector `(2, 0, 0)` it runs the finite-distance conversion (CIRS to
Observed keeps the distance 2, the at-infinity conversion would return a unit
vector) and checks no unit length, and on `in[3] = 0.0` it demands unit length
and aborts. -/
theorem C4_convert_framev4_flag_inverted :
    convert_framev4 ratKernel ratObserver none FRAME_CIRS FRAME_OBSERVED
        ⟨2, 0, 0, 1⟩ = .ok (0, ⟨0, 0, 2⟩) ∧
    convert_frame ratKernel ratObserver none FRAME_CIRS FRAME_OBSERVED false
        ⟨2, 0, 0⟩ = .ok (0, ⟨0, 0, 2⟩) ∧
    convert_frame ratKernel ratObserver none FRAME_CIRS FRAME_OBSERVED true
        ⟨2, 0, 0⟩ = .ok (0, ⟨0, 0, 1⟩) ∧
    convert_framev4 ratKernel ratObserver none FRAME_CIRS FRAME_OBSERVED
        ⟨2, 0, 0, 0⟩ = .error .v4_unit := by
  refine ⟨?_, ?_, ?_, ?_⟩
  · simp [convert_framev4, ratKernel, convert_frame, ratObserver, FRAME_CIRS,
      FRAME_OBSERVED, FRAME_NDC, FRAME_ASTROM, FRAME_JNOW, FRAME_VIEW,
      vec3_copy, nan_probe, convert_frame_forward, forward_stages,
      observed_stage, mat3_mul_vec3, vec3_norm, vec3_norm2, vec3_mul,
      vec3_normalize, ratSqrt_mul_self, ratSqrt_one]
  · simp [ratKernel, convert_frame, ratObserver, FRAME_CIRS,
      FRAME_OBSERVED, FRAME_NDC, FRAME_ASTROM, FRAME_JNOW, FRAME_VIEW,
      vec3_copy, nan_probe, convert_frame_forward, forward_stages,
      observed_stage, mat3_mul_vec3, vec3_norm, vec3_norm2, vec3_mul,
      vec3_normalize, ratSqrt_mul_self, ratSqrt_one]
  · simp [ratKernel, convert_frame, ratObserver, FRAME_CIRS,
      FRAME_OBSERVED, FRAME_NDC, FRAME_ASTROM, FRAME_JNOW, FRAME_VIEW,
      vec3_copy, nan_probe, convert_frame_forward, forward_stages,
      observed_stage, mat3_mul_vec3, vec3_norm, vec3_norm2, vec3_mul,
      vec3_normalize, ratSqrt_mul_self, ratSqrt_one]
  · simp only [convert_framev4, ratKernel, unit_check, vec3_norm2]
    norm_num

section Ideal

variable {α : Type} [LinearOrderedField α]

/-- In exact arithmetic the unit-length assertion is
`|v.v - 1| ≤ 0.0000000001`. -/
theorem unit_check_iff (K : Kernel α) (hK : K.Exact) (v : Vec3 α) :
    unit_check K v = true ↔ |vec3_norm2 v - 1| ≤ 0.0000000001 := by
  simp [unit_check, hK.fle, hK.fabs]

end Ideal

section Generic

variable {α : Type} [Add α] [Sub α] [Mul α] [Div α] [Neg α] [Zero α] [One α]
  [OfScientific α]

/-- C5 (amended). When `convert_framev4` treats its input as at infinity (the
branch of the code taken when `in[3] == 1.0` is false), the unit-length
requirement is the squared-norm check of line 146 with tolerance 1e-10, as the
code itself evaluates it: in every interpretation of `double` the call aborts
at that check iff `fabs(in[0]^2 + in[1]^2 + in[2]^2 - 1.0) <= 0.0000000001`
is false, and when it is true the call is the call of `convert_frame` with
`at_inf = true` on the first three components. -/
theorem C5_unit_tolerance (K : Kernel α) (core : Observer α)
    (obs : Option (Observer α)) (origin dest : Int) (inp : Vec4 α)
    (hw : K.feq inp.w 1 = false) :
    (convert_framev4 K core obs origin dest inp = .error .v4_unit ↔
      K.fle (K.fabs (inp.x * inp.x + inp.y * inp.y + inp.z * inp.z - 1))
        0.0000000001 = false) ∧
    (K.fle (K.fabs (inp.x * inp.x + inp.y * inp.y + inp.z * inp.z - 1))
        0.0000000001 = true →
      convert_framev4 K core obs origin dest inp
        = convert_frame K core obs origin dest true ⟨inp.x, inp.y, inp.z⟩) := by
  constructor
  · constructor
    · intro h
      cases hc : K.fle (K.fabs (inp.x * inp.x + inp.y * inp.y + inp.z * inp.z - 1))
          0.0000000001
      · rfl
      · simp only [convert_framev4, hw, unit_check, vec3_norm2, hc,
          Bool.false_eq_true, if_false, if_true] at h
        rcases convert_frame_error K _ _ _ _ _ _ _ h with h | h | h | h | h | h <;>
          simp at h
    · intro hc
      simp [convert_framev4, hw, unit_check, vec3_norm2, hc]
  · intro hc
    simp [convert_framev4, hw, unit_check, vec3_norm2, hc]

end Generic

/-- Witness of C5: the unit vector `(0, 1, 0)` with `in[3] = 0` passes the
check. -/
theorem C5_unit_tolerance_witness :
    (ratKernel.feq (0 : ℚ) 1 = false ∧
      ratKernel.fle (ratKernel.fabs ((0 : ℚ) * 0 + 1 * 1 + 0 * 0 - 1))
        0.0000000001 = true) ∧
    convert_framev4 ratKernel ratObserver none FRAME_ICRF FRAME_CIRS ⟨0, 1, 0, 0⟩
      = convert_frame ratKernel ratObserver none FRAME_ICRF FRAME_CIRS true
          ⟨0, 1, 0⟩ :=
  ⟨⟨by simp [ratKernel], by norm_num [ratKernel]⟩,
   (C5_unit_tolerance ratKernel ratObserver none FRAME_ICRF
      FRAME_CIRS ⟨0, 1, 0, 0⟩ (by simp [ratKernel])).2
        (by norm_num [ratKernel])⟩

/-- C5, counterexample to the tolerance 1e-5: `(1, 1/1000, 0)` has squared
norm `1 + 1e-6`, within 1e-5 of one, and the call (at infinity, `in[3] = 0`)
aborts at the unit-length check. -/
theorem C5_counterexample :
    vec3_norm2 (⟨1, 1 / 1000, 0⟩ : Vec3 ℚ) = 1 + 0.000001 ∧
    |vec3_norm2 (⟨1, 1 / 1000, 0⟩ : Vec3 ℚ) - 1| ≤ 0.00001 ∧
    convert_framev4 ratKernel ratObserver none FRAME_ICRF FRAME_ICRF
      ⟨1, 1 / 1000, 0, 0⟩ = .error .v4_unit := by
  have h : vec3_norm2 (⟨1, 1 / 1000, 0⟩ : Vec3 ℚ) - 1 = 1 / 1000000 := by
    norm_num [vec3_norm2]
  have habs : |(1 / 1000000 : ℚ)| = 1 / 1000000 := abs_of_pos (by norm_num)
  refine ⟨?_, ?_, ?_⟩
  · norm_num [vec3_norm2]
  · rw [h, habs]; norm_num
  · have hc : unit_check ratKernel (⟨1, 1 / 1000, 0⟩ : Vec3 ℚ) = false := by
      simp only [unit_check, ratKernel, h, habs]
      norm_num
    have hw : ratKernel.feq (0 : ℚ) 1 = false := by simp [ratKernel]
    simp only [convert_framev4, hw, hc, Bool.false_eq_true, if_false]

section Generic

variable {α : Type} [Add α] [Sub α] [Mul α] [Div α] [Neg α] [Zero α] [One α]
  [OfScientific α]

/-- C6. JNow is a terminal target.  For every flag and every input that passes
the NaN assertions, ICRF to JNow returns `Rz(-eo) (bpn v)` and CIRS to JNow
returns `Rz(-eo) v`, with `Rz(-eo) = mat3_rz(-eo, identity)`; and for every
input the outcome is unchanged when `ri2h`, `ro2v` and the refraction
coefficients of the observer are replaced by anything else. -/
theorem C6_jnow_is_terminal (K : Kernel α) (core : Observer α)
    (obs : Option (Observer α)) (f : Bool) (v : Vec3 α) :
    (K.isnan (nan_probe v) = false →
      K.isnan (nan_probe (mat3_mul_vec3
        (K.mat3_rz (-(obs.getD core).eo) mat3_set_identity)
        (eraRxp (obs.getD core).astrom.bpn v))) = false →
      convert_frame K core obs FRAME_ICRF FRAME_JNOW f v
        = .ok (0, mat3_mul_vec3
            (K.mat3_rz (-(obs.getD core).eo) mat3_set_identity)
            (eraRxp (obs.getD core).astrom.bpn v))) ∧
    (K.isnan (nan_probe v) = false →
      K.isnan (nan_probe (mat3_mul_vec3
        (K.mat3_rz (-(obs.getD core).eo) mat3_set_identity) v)) = false →
      convert_frame K core obs FRAME_CIRS FRAME_JNOW f v
        = .ok (0, mat3_mul_vec3
            (K.mat3_rz (-(obs.getD core).eo) mat3_set_identity) v)) ∧
    (∀ (ri2h ro2v : Mat3 α) (refa refb : α) (origin : Int),
      origin = FRAME_ICRF ∨ origin = FRAME_CIRS →
      convert_frame K core
          (some { (obs.getD core) with
            ri2h := ri2h, ro2v := ro2v,
            astrom := { (obs.getD core).astrom with refa := refa, refb := refb } })
          origin FRAME_JNOW f v
        = convert_frame K core obs origin FRAME_JNOW f v) := by
  refine ⟨fun hv ho => ?_, fun hv ho => ?_, fun ri2h ro2v refa refb origin h => ?_⟩
  · simp [convert_frame, convert_frame_forward, forward_stages, FRAME_ICRF,
      FRAME_JNOW, FRAME_NDC, FRAME_ASTROM, FRAME_CIRS, vec3_copy, hv, ho]
  · simp [convert_frame, convert_frame_forward, forward_stages, FRAME_ICRF,
      FRAME_JNOW, FRAME_NDC, FRAME_ASTROM, FRAME_CIRS, vec3_copy, hv, ho]
  · rcases h with h | h <;> subst h <;>
      simp [convert_frame, convert_frame_forward, forward_stages, FRAME_ICRF,
        FRAME_JNOW, FRAME_NDC, FRAME_ASTROM, FRAME_CIRS, vec3_copy]

end Generic

/-- Witness of C6: ICRF to JNow of `(1, 2, 3)`; `bpn` of the observer is a
quarter turn and `eo = 0`. -/
theorem C6_jnow_is_terminal_witness :
    (ratKernel.isnan (nan_probe (⟨1, 2, 3⟩ : Vec3 ℚ)) = false ∧
     ratKernel.isnan (nan_probe (⟨2, -1, 3⟩ : Vec3 ℚ)) = false) ∧
    convert_frame ratKernel ratObserver none FRAME_ICRF FRAME_JNOW false ⟨1, 2, 3⟩
      = .ok (0, ⟨2, -1, 3⟩) :=
  ⟨⟨rfl, rfl⟩, by
    have h := (C6_jnow_is_terminal ratKernel ratObserver none false ⟨1, 2, 3⟩).1 rfl rfl
    simpa [ratKernel, ratObserver, ratRz, mat3_set_identity, mat3_mul_vec3, eraRxp]
      using h⟩

section Ideal

variable {α : Type} [Field α]

/-- C7. With `at_inf = false`, the null vector converted from ICRF, CIRS or
JNow to Observed or View comes back as the null vector, for every observer and
whatever the refraction function is (it is not consulted), in any
interpretation with field arithmetic in which `sqrt(0) == 0` holds and `0` is
not NaN. -/
theorem C7_zero_vector (K : Kernel α) (core : Observer α)
    (obs : Option (Observer α)) (origin dest : Int)
    (refr : Vec3 α → α → α → Vec3 α)
    (hs : K.feq (K.sqrt 0) 0 = true) (hn : K.isnan 0 = false)
    (ho : origin = FRAME_ICRF ∨ origin = FRAME_CIRS ∨ origin = FRAME_JNOW)
    (hd : dest = FRAME_OBSERVED ∨ dest = FRAME_VIEW) :
    convert_frame { K with refraction := refr } core obs origin dest false
      ⟨0, 0, 0⟩ = .ok (0, ⟨0, 0, 0⟩) := by
  rcases ho with h | h | h <;> rcases hd with h' | h' <;> subst h <;> subst h' <;>
    simp [convert_frame, convert_frame_forward, forward_stages, observed_stage,
      FRAME_ICRF, FRAME_JNOW, FRAME_NDC, FRAME_ASTROM, FRAME_CIRS,
      FRAME_OBSERVED, FRAME_VIEW, vec3_copy, nan_probe, eraRxp, mat3_mul_vec3,
      vec3_norm, vec3_norm2, vec3_set, hs, hn]

end Ideal

/-- Witness of C7: CIRS to View, with a refraction that would move every
vector. -/
theorem C7_zero_vector_witness :
    (ratKernel.feq (ratKernel.sqrt 0) 0 = true ∧ ratKernel.isnan 0 = false ∧
      (FRAME_CIRS = FRAME_ICRF ∨ FRAME_CIRS = FRAME_CIRS ∨ FRAME_CIRS = FRAME_JNOW) ∧
      (FRAME_VIEW = FRAME_OBSERVED ∨ FRAME_VIEW = FRAME_VIEW)) ∧
    convert_frame { ratKernel with refraction := fun _ _ _ => ⟨1, 1, 1⟩ }
      ratObserver none FRAME_CIRS FRAME_VIEW false ⟨0, 0, 0⟩
      = .ok (0, ⟨0, 0, 0⟩) :=
  ⟨⟨by simp [ratKernel, ratSqrt_zero], rfl, Or.inr (Or.inl rfl), Or.inr rfl⟩,
   C7_zero_vector ratKernel ratObserver none FRAME_CIRS FRAME_VIEW
     (fun _ _ _ => ⟨1, 1, 1⟩) (by simp [ratKernel, ratSqrt_zero]) rfl
     (Or.inr (Or.inl rfl)) (Or.inr rfl)⟩

section Ideal

variable {α : Type} [LinearOrderedField α]

/-- A vector with null squared norm is null. -/
theorem vec3_norm2_eq_zero (v : Vec3 α) (h : vec3_norm2 v = 0) :
    v = ⟨0, 0, 0⟩ := by
  obtain ⟨x, y, z⟩ := v
  simp only [vec3_norm2] at h
  have hx : x = 0 := by nlinarith [mul_self_nonneg x, mul_self_nonneg y, mul_self_nonneg z]
  have hy : y = 0 := by nlinarith [mul_self_nonneg x, mul_self_nonneg y, mul_self_nonneg z]
  have hz : z = 0 := by nlinarith [mul_self_nonneg x, mul_self_nonneg y, mul_self_nonneg z]
  rw [hx, hy, hz]

/-- With an exact square root, a vector that is not null has a norm that is
not null. -/
theorem vec3_norm_ne_zero (K : Kernel α) (v : Vec3 α) (hv : v ≠ ⟨0, 0, 0⟩)
    (hs : SqrtAt K (vec3_norm2 v)) : vec3_norm K v ≠ 0 := by
  intro h0
  apply hv
  apply vec3_norm2_eq_zero
  have := hs.2
  unfold vec3_norm at h0
  rw [h0] at this
  simpa using this.symm

/-- A matrix with orthonormal rows keeps the squared norm. -/
theorem vec3_norm2_mat3_mul_vec3 (m : Mat3 α) (hm : RowsOrthonormal m)
    (v : Vec3 α) : vec3_norm2 (mat3_mul_vec3 m v) = vec3_norm2 v := by
  obtain ⟨h00, h11, h22, h01, h02, h12⟩ := hm
  simp only [vec3_norm2, mat3_mul_vec3]
  linear_combination (v.x * v.x) * h00 + (v.y * v.y) * h11 + (v.z * v.z) * h22
    + (2 * v.x * v.y) * h01 + (2 * v.x * v.z) * h02 + (2 * v.y * v.z) * h12

/-- Normalising a vector whose computed norm is not zero and rescaling by `d`
gives squared norm `d * d`, the square root being exact. -/
theorem vec3_norm2_rescaled (K : Kernel α) (r : Vec3 α) (d : α)
    (hs : SqrtAt K (vec3_norm2 r)) (hn : vec3_norm K r ≠ 0) :
    vec3_norm2 (vec3_mul d (vec3_normalize K r)) = d * d := by
  have h2 := hs.2
  unfold vec3_norm at hn
  obtain ⟨x, y, z⟩ := r
  simp only [vec3_mul, vec3_normalize, vec3_norm, vec3_norm2] at *
  generalize K.sqrt (x * x + y * y + z * z) = n at *
  field_simp
  linear_combination (-(d * d)) * h2

/-- With exact square roots, normalising `r` (of computed norm not zero) and
rescaling by the norm of `w` gives a vector of the norm of `w`. -/
theorem vec3_norm_rescaled (K : Kernel α) (w r : Vec3 α)
    (hsw : SqrtAt K (vec3_norm2 w)) (hsr : SqrtAt K (vec3_norm2 r))
    (hn : vec3_norm K r ≠ 0) :
    vec3_norm K (vec3_mul (vec3_norm K w) (vec3_normalize K r))
      = vec3_norm K w := by
  have h1 := vec3_norm2_rescaled K r (vec3_norm K w) hsr hn
  have h2 : vec3_norm K w * vec3_norm K w = vec3_norm2 w := hsw.2
  show K.sqrt _ = _
  rw [h1, h2]
  rfl

/-- With exact square roots, a normalised vector of computed norm not zero has
norm 1. -/
theorem vec3_norm_normalize (K : Kernel α) (r : Vec3 α)
    (hsr : SqrtAt K (vec3_norm2 r)) (hs1 : SqrtAt K 1)
    (hn : vec3_norm K r ≠ 0) : vec3_norm K (vec3_normalize K r) = 1 := by
  have h1 := vec3_norm2_rescaled K r 1 hsr hn
  have h2 : vec3_mul 1 (vec3_normalize K r) = vec3_normalize K r := by
    simp [vec3_mul]
  rw [h2] at h1
  unfold vec3_norm
  rw [h1, mul_one]
  obtain ⟨hnn, hsq⟩ := hs1
  nlinarith

end Ideal

section Generic

variable {α : Type} [Add α] [Sub α] [Mul α] [Div α] [Neg α] [Zero α] [One α]
  [OfScientific α]

/-- C8 (amended). With `at_inf = false`, from CIRS or JNow to Observed, for an
input that passes the input NaN assertion, in every interpretation of
`double`: let `w = ri2h v`, `d = ‖w‖` as the code computes it and
`r = refraction(w * (1 / d))`.  When the test `d == 0.0` of line 93 holds the
call returns the null vector; when it fails the call returns `r` normalised
and multiplied by `d` if that vector passes the NaN assertion of line 134, and
aborts there if not.  Where the arithmetic is that of an ordered field and the
two square roots are exact, a call that passes these tests returns a vector of
norm `d = ‖ri2h v‖` whenever the computed norm of `r` is not zero, and
`d = ‖v‖` when the rows of `ri2h` are orthonormal. -/
theorem C8_refraction_keeps_distance (K : Kernel α)
    (core : Observer α) (obs : Option (Observer α)) (origin : Int)
    (v w r : Vec3 α) (d : α)
    (ho : origin = FRAME_CIRS ∨ origin = FRAME_JNOW)
    (hw : w = mat3_mul_vec3 (obs.getD core).ri2h v)
    (hd : d = vec3_norm K w)
    (hr : r = K.refraction (vec3_mul (1 / d) w)
      (obs.getD core).astrom.refa (obs.getD core).astrom.refb)
    (hv : K.isnan (nan_probe v) = false) :
    (K.feq d 0 = true → K.isnan (nan_probe (⟨0, 0, 0⟩ : Vec3 α)) = false →
      convert_frame K core obs origin FRAME_OBSERVED false v
        = .ok (0, ⟨0, 0, 0⟩)) ∧
    (K.feq d 0 = false →
      K.isnan (nan_probe (vec3_mul d (vec3_normalize K r))) = false →
      convert_frame K core obs origin FRAME_OBSERVED false v
        = .ok (0, vec3_mul d (vec3_normalize K r))) ∧
    (K.feq d 0 = false →
      K.isnan (nan_probe (vec3_mul d (vec3_normalize K r))) = true →
      convert_frame K core obs origin FRAME_OBSERVED false v
        = .error .nan_out) ∧
    (∀ (β : Type) [LinearOrderedField β] (E : Kernel β) (c : Observer β)
        (orig : Int) (v1 w1 r1 : Vec3 β) (d1 : β),
      orig = FRAME_CIRS ∨ orig = FRAME_JNOW →
      w1 = mat3_mul_vec3 c.ri2h v1 → d1 = vec3_norm E w1 →
      r1 = E.refraction (vec3_mul (1 / d1) w1) c.astrom.refa c.astrom.refb →
      E.isnan (nan_probe v1) = false → E.feq d1 0 = false →
      E.isnan (nan_probe (vec3_mul d1 (vec3_normalize E r1))) = false →
      SqrtAt E (vec3_norm2 w1) → SqrtAt E (vec3_norm2 r1) →
      vec3_norm E r1 ≠ 0 →
      ∃ out, convert_frame E c none orig FRAME_OBSERVED false v1 = .ok (0, out) ∧
        vec3_norm E out = d1 ∧
        (RowsOrthonormal c.ri2h → vec3_norm E out = vec3_norm E v1)) := by
  refine ⟨fun h0 hn => ?_, fun h0 hn => ?_, fun h0 hn => ?_,
    fun β _ E c orig v1 w1 r1 d1 ho1 hw1 hd1 hr1 hv1 h0 hn hs1 hs2 hr0 => ?_⟩
  · subst hw hd hr
    rcases ho with h | h <;> subst h <;>
      simp [convert_frame, convert_frame_forward, forward_stages, observed_stage,
        FRAME_JNOW, FRAME_NDC, FRAME_ASTROM, FRAME_CIRS,
        FRAME_OBSERVED, FRAME_VIEW, vec3_copy, vec3_set, hv, h0, hn]
  · subst hw hd hr
    rcases ho with h | h <;> subst h <;>
      simp [convert_frame, convert_frame_forward, forward_stages, observed_stage,
        FRAME_JNOW, FRAME_NDC, FRAME_ASTROM, FRAME_CIRS,
        FRAME_OBSERVED, FRAME_VIEW, vec3_copy, hv, h0, hn]
  · subst hw hd hr
    rcases ho with h | h <;> subst h <;>
      simp [convert_frame, convert_frame_forward, forward_stages, observed_stage,
        FRAME_JNOW, FRAME_NDC, FRAME_ASTROM, FRAME_CIRS,
        FRAME_OBSERVED, FRAME_VIEW, vec3_copy, hv, h0, hn]
  · have hnorm := vec3_norm_rescaled E w1 r1 hs1 hs2 hr0
    rw [← hd1] at hnorm
    refine ⟨vec3_mul d1 (vec3_normalize E r1), ?_, hnorm, fun hm => ?_⟩
    · subst hw1 hd1 hr1
      rcases ho1 with h | h <;> subst h <;>
        simp [convert_frame, convert_frame_forward, forward_stages,
          observed_stage, FRAME_JNOW, FRAME_NDC, FRAME_ASTROM, FRAME_CIRS,
          FRAME_OBSERVED, FRAME_VIEW, vec3_copy, hv1, h0, hn, -one_div]
    · rw [hnorm, hd1, hw1]
      unfold vec3_norm
      rw [vec3_norm2_mat3_mul_vec3 _ hm]

end Generic

theorem ratSqrt_289_100 : ratSqrt (289 / 100) = 17 / 10 := by
  have h := ratSqrt_mul_self (17 / 10) (by norm_num)
  norm_num at h
  exact h

/-- Witness of C8: `v = (3, 4, 0)` seen through `ratObserverAir`, where
`ri2h v = (4, 0, 3)` has norm 5 and the refracted direction `(4/5, 0, 3/2)`
has norm 17/10. -/
theorem C8_refraction_keeps_distance_witness :
    ((FRAME_CIRS = FRAME_CIRS ∨ FRAME_CIRS = FRAME_JNOW) ∧
      (⟨4, 0, 3⟩ : Vec3 ℚ) = mat3_mul_vec3 ratObserverAir.ri2h ⟨3, 4, 0⟩ ∧
      (5 : ℚ) = vec3_norm ratKernel ⟨4, 0, 3⟩ ∧
      (⟨4 / 5, 0, 3 / 2⟩ : Vec3 ℚ) = ratKernel.refraction
        (vec3_mul (1 / 5) ⟨4, 0, 3⟩) ratObserverAir.astrom.refa
        ratObserverAir.astrom.refb ∧
      ratKernel.isnan (nan_probe (⟨3, 4, 0⟩ : Vec3 ℚ)) = false ∧
      ratKernel.feq (5 : ℚ) 0 = false ∧
      ratKernel.isnan (nan_probe
        (vec3_mul 5 (vec3_normalize ratKernel ⟨4 / 5, 0, 3 / 2⟩))) = false ∧
      SqrtAt ratKernel (vec3_norm2 (⟨4, 0, 3⟩ : Vec3 ℚ)) ∧
      SqrtAt ratKernel (vec3_norm2 (⟨4 / 5, 0, 3 / 2⟩ : Vec3 ℚ)) ∧
      vec3_norm ratKernel (⟨4 / 5, 0, 3 / 2⟩ : Vec3 ℚ) ≠ 0) ∧
    (convert_frame ratKernel ratObserverAir none FRAME_CIRS FRAME_OBSERVED false
        ⟨3, 4, 0⟩
      = .ok (0, vec3_mul 5 (vec3_normalize ratKernel ⟨4 / 5, 0, 3 / 2⟩)) ∧
     vec3_norm ratKernel (vec3_mul 5 (vec3_normalize ratKernel ⟨4 / 5, 0, 3 / 2⟩))
      = 5) := by
  have h1 : (⟨4, 0, 3⟩ : Vec3 ℚ) = mat3_mul_vec3 ratObserverAir.ri2h ⟨3, 4, 0⟩ := by
    simp [mat3_mul_vec3, ratObserverAir, ratObserver]
  have e25 : vec3_norm2 (⟨4, 0, 3⟩ : Vec3 ℚ) = 25 := by norm_num [vec3_norm2]
  have e289 : vec3_norm2 (⟨4 / 5, 0, 3 / 2⟩ : Vec3 ℚ) = 289 / 100 := by
    norm_num [vec3_norm2]
  have h2 : (5 : ℚ) = vec3_norm ratKernel ⟨4, 0, 3⟩ := by
    simp only [vec3_norm, e25, ratKernel, ratSqrt_twentyfive]
  have h3 : (⟨4 / 5, 0, 3 / 2⟩ : Vec3 ℚ) = ratKernel.refraction
      (vec3_mul (1 / 5) ⟨4, 0, 3⟩) ratObserverAir.astrom.refa
      ratObserverAir.astrom.refb := by
    simp only [ratKernel, vec3_mul, ratObserverAir, ratObserver]
    norm_num
  have h4 : ratKernel.feq (5 : ℚ) 0 = false := by simp [ratKernel]
  have h6 : SqrtAt ratKernel (vec3_norm2 (⟨4, 0, 3⟩ : Vec3 ℚ)) := by
    simp only [SqrtAt, e25, ratKernel, ratSqrt_twentyfive]
    norm_num
  have h7 : SqrtAt ratKernel (vec3_norm2 (⟨4 / 5, 0, 3 / 2⟩ : Vec3 ℚ)) := by
    simp only [SqrtAt, e289, ratKernel, ratSqrt_289_100]
    norm_num
  have h8 : vec3_norm ratKernel (⟨4 / 5, 0, 3 / 2⟩ : Vec3 ℚ) ≠ 0 := by
    simp only [vec3_norm, e289, ratKernel, ratSqrt_289_100]
    norm_num
  have h := C8_refraction_keeps_distance ratKernel ratObserverAir
    none FRAME_CIRS ⟨3, 4, 0⟩ ⟨4, 0, 3⟩ ⟨4 / 5, 0, 3 / 2⟩ 5 (Or.inl rfl)
    h1 h2 h3 rfl
  obtain ⟨out, ho1, ho2, _⟩ := h.2.2.2 ℚ ratKernel ratObserverAir FRAME_CIRS
    ⟨3, 4, 0⟩ ⟨4, 0, 3⟩ ⟨4 / 5, 0, 3 / 2⟩ 5 (Or.inl rfl) h1 h2 h3 rfl h4 rfl
    h6 h7 h8
  have hc := h.2.1 h4 rfl
  rw [hc] at ho1
  cases ho1
  exact ⟨⟨Or.inl rfl, h1, h2, h3, rfl, h4, rfl, h6, h7, h8⟩, hc, ho2⟩

/-- C8, counterexample: in the interpretation whose norm underflows, the
vector `v = (2^-600, 0, 0)` has `ri2h v = (0, 0, 2^-600)`, which is not
null, and the refraction (the identity for this observer) returns a vector
that is not null on its direction `(0, 0, 1)`; the norm of `ri2h v` is
computed as 0, the test `dist == 0.0` holds, and the call returns the null
vector, whose squared norm 0 is not the squared norm 2^-1200 of `ri2h v`. -/
theorem C8_counterexample :
    mat3_mul_vec3 xnumObserver.ri2h ⟨.num (1 / 2 ^ 600), .num 0, .num 0⟩
      = (⟨.num 0, .num 0, .num (1 / 2 ^ 600)⟩ : Vec3 XNum) ∧
    (⟨.num 0, .num 0, .num (1 / 2 ^ 600)⟩ : Vec3 XNum) ≠ ⟨.num 0, .num 0, .num 0⟩ ∧
    xnumKernelFlush.refraction ⟨.num 0, .num 0, .num 1⟩
        xnumObserver.astrom.refa xnumObserver.astrom.refb
      = ⟨.num 0, .num 0, .num 1⟩ ∧
    vec3_norm xnumKernelFlush ⟨.num 0, .num 0, .num (1 / 2 ^ 600)⟩ = .num 0 ∧
    convert_frame xnumKernelFlush xnumObserver none FRAME_CIRS FRAME_OBSERVED
        false ⟨.num (1 / 2 ^ 600), .num 0, .num 0⟩
      = .ok (0, ⟨.num 0, .num 0, .num 0⟩) ∧
    vec3_norm2 (⟨.num 0, .num 0, .num 0⟩ : Vec3 XNum) = .num 0 ∧
    vec3_norm2 (⟨.num 0, .num 0, .num (1 / 2 ^ 600)⟩ : Vec3 XNum)
      = .num (1 / 2 ^ 1200) := by
  refine ⟨?_, ?_, ?_, ?_, ?_, ?_, ?_⟩
  · simp [mat3_mul_vec3, xnumObserver, XNum.ofMat, XNum.ofVec, ratObserver,
      XNum.num_add, XNum.num_mul]
  · simp
  · simp [xnumKernelFlush, xnumKernel, xnumObserver, ratObserver, XNum.num_add]
  · simp only [vec3_norm, vec3_norm2, xnumKernelFlush, XNum.num_add,
      XNum.num_mul]
    norm_num
  · norm_num [convert_frame, convert_frame_forward, forward_stages,
      observed_stage, FRAME_CIRS, FRAME_OBSERVED, FRAME_NDC, FRAME_ASTROM,
      FRAME_JNOW, FRAME_VIEW, vec3_copy, nan_probe, mat3_mul_vec3, vec3_norm,
      vec3_norm2, vec3_set, xnumKernelFlush, xnumKernel, xnumObserver,
      XNum.ofMat, XNum.ofVec, ratObserver, XNum.num_add, XNum.num_mul,
      XNum.zero_def]
    rfl
  · simp [vec3_norm2, XNum.num_add, XNum.num_mul]
  · simp only [vec3_norm2, XNum.num_add, XNum.num_mul]
    norm_num

section Generic

variable {α : Type} [Add α] [Sub α] [Mul α] [Div α] [Neg α] [Zero α] [One α]
  [OfScientific α]

/-- C9 (amended). With `at_inf = true`, from ICRF, CIRS or JNow to Observed,
for an input that passes the input NaN assertion, in every interpretation of
`double`: let `r = refraction(ri2h p)`, where `p` is `bpn v` from ICRF and `v`
from CIRS or JNow.  The call returns `r * (1 / ‖r‖)` if that vector passes the
NaN assertion of line 134, and aborts there if not.  Where the arithmetic is
that of an ordered field and the square roots are exact, a call that passes
the two NaN assertions returns a vector of norm 1 whenever the computed norm
of `r` is not zero. -/
theorem C9_at_infinity_renormalised (K : Kernel α)
    (core : Observer α) (obs : Option (Observer α)) (origin : Int)
    (v p r : Vec3 α)
    (ho : origin = FRAME_ICRF ∨ origin = FRAME_CIRS ∨ origin = FRAME_JNOW)
    (hp : p = if origin = FRAME_ICRF
      then eraRxp (obs.getD core).astrom.bpn v else v)
    (hr : r = K.refraction (mat3_mul_vec3 (obs.getD core).ri2h p)
      (obs.getD core).astrom.refa (obs.getD core).astrom.refb)
    (hv : K.isnan (nan_probe v) = false) :
    (K.isnan (nan_probe (vec3_normalize K r)) = false →
      convert_frame K core obs origin FRAME_OBSERVED true v
        = .ok (0, vec3_normalize K r)) ∧
    (K.isnan (nan_probe (vec3_normalize K r)) = true →
      convert_frame K core obs origin FRAME_OBSERVED true v
        = .error .nan_out) ∧
    (∀ (β : Type) [LinearOrderedField β] (E : Kernel β) (c : Observer β)
        (orig : Int) (v1 p1 r1 : Vec3 β),
      orig = FRAME_ICRF ∨ orig = FRAME_CIRS ∨ orig = FRAME_JNOW →
      p1 = (if orig = FRAME_ICRF then eraRxp c.astrom.bpn v1 else v1) →
      r1 = E.refraction (mat3_mul_vec3 c.ri2h p1) c.astrom.refa c.astrom.refb →
      E.isnan (nan_probe v1) = false →
      E.isnan (nan_probe (vec3_normalize E r1)) = false →
      SqrtAt E (vec3_norm2 r1) → SqrtAt E 1 → vec3_norm E r1 ≠ 0 →
      ∃ out, convert_frame E c none orig FRAME_OBSERVED true v1 = .ok (0, out) ∧
        vec3_norm E out = 1) := by
  refine ⟨fun hn => ?_, fun hn => ?_,
    fun β _ E c orig v1 p1 r1 ho1 hp1 hr1 hv1 hn hs1 hs2 hr0 => ?_⟩
  · rcases ho with h | h | h <;> subst h <;>
      simp only [FRAME_ICRF, FRAME_CIRS, FRAME_JNOW, if_true, if_false,
        show ((1 : Int) = 0) = False by decide,
        show ((2 : Int) = 0) = False by decide] at hp <;>
      subst hp hr <;>
      simp [convert_frame, convert_frame_forward, forward_stages, observed_stage,
        FRAME_ICRF, FRAME_JNOW, FRAME_NDC, FRAME_ASTROM, FRAME_CIRS,
        FRAME_OBSERVED, FRAME_VIEW, vec3_copy, hv, hn]
  · rcases ho with h | h | h <;> subst h <;>
      simp only [FRAME_ICRF, FRAME_CIRS, FRAME_JNOW, if_true, if_false,
        show ((1 : Int) = 0) = False by decide,
        show ((2 : Int) = 0) = False by decide] at hp <;>
      subst hp hr <;>
      simp [convert_frame, convert_frame_forward, forward_stages, observed_stage,
        FRAME_ICRF, FRAME_JNOW, FRAME_NDC, FRAME_ASTROM, FRAME_CIRS,
        FRAME_OBSERVED, FRAME_VIEW, vec3_copy, hv, hn]
  · refine ⟨vec3_normalize E r1, ?_, vec3_norm_normalize E r1 hs1 hs2 hr0⟩
    rcases ho1 with h | h | h <;> subst h <;>
      simp only [FRAME_ICRF, FRAME_CIRS, FRAME_JNOW, if_true, if_false,
        show ((1 : Int) = 0) = False by decide,
        show ((2 : Int) = 0) = False by decide] at hp1 <;>
      subst hp1 hr1 <;>
      simp [convert_frame, convert_frame_forward, forward_stages, observed_stage,
        FRAME_ICRF, FRAME_JNOW, FRAME_NDC, FRAME_ASTROM, FRAME_CIRS,
        FRAME_OBSERVED, FRAME_VIEW, vec3_copy, hv1, hn]

end Generic

/-- Witness of C9: the direction `(0, 1, 0)` from ICRF through
`ratObserverAir`: `bpn` turns it to `(1, 0, 0)`, `ri2h` to `(0, 0, 1)`, and
refraction lifts it to `(0, 0, 19/10)`. -/
theorem C9_at_infinity_renormalised_witness :
    ((FRAME_ICRF = FRAME_ICRF ∨ FRAME_ICRF = FRAME_CIRS ∨ FRAME_ICRF = FRAME_JNOW) ∧
      (⟨1, 0, 0⟩ : Vec3 ℚ) = (if FRAME_ICRF = FRAME_ICRF
        then eraRxp ratObserverAir.astrom.bpn ⟨0, 1, 0⟩ else ⟨0, 1, 0⟩) ∧
      (⟨0, 0, 19 / 10⟩ : Vec3 ℚ) = ratKernel.refraction
        (mat3_mul_vec3 ratObserverAir.ri2h ⟨1, 0, 0⟩)
        ratObserverAir.astrom.refa ratObserverAir.astrom.refb ∧
      ratKernel.isnan (nan_probe (⟨0, 1, 0⟩ : Vec3 ℚ)) = false ∧
      ratKernel.isnan (nan_probe
        (vec3_normalize ratKernel (⟨0, 0, 19 / 10⟩ : Vec3 ℚ))) = false ∧
      SqrtAt ratKernel (vec3_norm2 (⟨0, 0, 19 / 10⟩ : Vec3 ℚ)) ∧
      SqrtAt ratKernel 1 ∧
      vec3_norm ratKernel (⟨0, 0, 19 / 10⟩ : Vec3 ℚ) ≠ 0) ∧
    (convert_frame ratKernel ratObserverAir none FRAME_ICRF FRAME_OBSERVED true
        ⟨0, 1, 0⟩ = .ok (0, vec3_normalize ratKernel ⟨0, 0, 19 / 10⟩) ∧
     vec3_norm ratKernel (vec3_normalize ratKernel ⟨0, 0, 19 / 10⟩) = 1) := by
  have h1 : (⟨1, 0, 0⟩ : Vec3 ℚ) = (if FRAME_ICRF = FRAME_ICRF
      then eraRxp ratObserverAir.astrom.bpn ⟨0, 1, 0⟩ else ⟨0, 1, 0⟩) := by
    simp [eraRxp, ratObserverAir, ratObserver]
  have h2 : (⟨0, 0, 19 / 10⟩ : Vec3 ℚ) = ratKernel.refraction
      (mat3_mul_vec3 ratObserverAir.ri2h ⟨1, 0, 0⟩)
      ratObserverAir.astrom.refa ratObserverAir.astrom.refb := by
    simp only [ratKernel, mat3_mul_vec3, ratObserverAir, ratObserver]
    norm_num
  have e : vec3_norm2 (⟨0, 0, 19 / 10⟩ : Vec3 ℚ) = 19 / 10 * (19 / 10) := by
    norm_num [vec3_norm2]
  have h4 : SqrtAt ratKernel (vec3_norm2 (⟨0, 0, 19 / 10⟩ : Vec3 ℚ)) := by
    simp only [SqrtAt, e, ratKernel]
    rw [ratSqrt_mul_self _ (by norm_num)]
    norm_num
  have h5 : SqrtAt ratKernel 1 := by
    simp only [SqrtAt, ratKernel, ratSqrt_one]
    norm_num
  have h6 : vec3_norm ratKernel (⟨0, 0, 19 / 10⟩ : Vec3 ℚ) ≠ 0 := by
    simp only [vec3_norm, e, ratKernel]
    rw [ratSqrt_mul_self _ (by norm_num)]
    norm_num
  have h := C9_at_infinity_renormalised ratKernel ratObserverAir
    none FRAME_ICRF ⟨0, 1, 0⟩ ⟨1, 0, 0⟩ ⟨0, 0, 19 / 10⟩ (Or.inl rfl) h1 h2 rfl
  obtain ⟨out, ho1, ho2⟩ := h.2.2 ℚ ratKernel ratObserverAir FRAME_ICRF
    ⟨0, 1, 0⟩ ⟨1, 0, 0⟩ ⟨0, 0, 19 / 10⟩ (Or.inl rfl) h1 h2 rfl rfl h4 h5 h6
  have hc := h.1 rfl
  rw [hc] at ho1
  cases ho1
  exact ⟨⟨Or.inl rfl, h1, h2, rfl, rfl, h4, h5, h6⟩, hc, ho2⟩

/-- C9, counterexample: in the interpretation whose norm underflows, from CIRS
with `at_inf = true`, the vector `v = (2^-600, 0, 0)` gives
`r = refraction(ri2h v) = (0, 0, 2^-600)`, which is not null; its norm is
computed as 0, the re-normalised vector `r * (1 / 0)` is NaN in every
component, and the call aborts at the NaN assertion of line 134: there is no
result of norm 1. -/
theorem C9_counterexample :
    xnumKernelFlush.refraction
        (mat3_mul_vec3 xnumObserver.ri2h ⟨.num (1 / 2 ^ 600), .num 0, .num 0⟩)
        xnumObserver.astrom.refa xnumObserver.astrom.refb
      = (⟨.num 0, .num 0, .num (1 / 2 ^ 600)⟩ : Vec3 XNum) ∧
    (⟨.num 0, .num 0, .num (1 / 2 ^ 600)⟩ : Vec3 XNum) ≠ ⟨.num 0, .num 0, .num 0⟩ ∧
    vec3_norm xnumKernelFlush ⟨.num 0, .num 0, .num (1 / 2 ^ 600)⟩ = .num 0 ∧
    vec3_normalize xnumKernelFlush ⟨.num 0, .num 0, .num (1 / 2 ^ 600)⟩
      = ⟨.nan, .nan, .nan⟩ ∧
    convert_frame xnumKernelFlush xnumObserver none FRAME_CIRS FRAME_OBSERVED
        true ⟨.num (1 / 2 ^ 600), .num 0, .num 0⟩
      = .error .nan_out := by
  have hr : xnumKernelFlush.refraction
        (mat3_mul_vec3 xnumObserver.ri2h ⟨.num (1 / 2 ^ 600), .num 0, .num 0⟩)
        xnumObserver.astrom.refa xnumObserver.astrom.refb
      = (⟨.num 0, .num 0, .num (1 / 2 ^ 600)⟩ : Vec3 XNum) := by
    simp [mat3_mul_vec3, xnumKernelFlush, xnumKernel, xnumObserver, XNum.ofMat,
      XNum.ofVec, ratObserver, XNum.num_add, XNum.num_mul]
  have hd : vec3_norm xnumKernelFlush ⟨.num 0, .num 0, .num (1 / 2 ^ 600)⟩
      = .num 0 := by
    simp only [vec3_norm, vec3_norm2, xnumKernelFlush, XNum.num_add,
      XNum.num_mul]
    norm_num
  have hn : vec3_normalize xnumKernelFlush ⟨.num 0, .num 0, .num (1 / 2 ^ 600)⟩
      = ⟨.nan, .nan, .nan⟩ := by
    rw [vec3_normalize, hd]
    simp [vec3_mul, XNum.one_def, XNum.num_div, XNum.mul_nan]
  refine ⟨hr, by simp, hd, hn, ?_⟩
  have hs : forward_stages xnumKernelFlush xnumObserver FRAME_CIRS
      FRAME_OBSERVED true ⟨.num (1 / 2 ^ 600), .num 0, .num 0⟩
      = ⟨.nan, .nan, .nan⟩ := by
    rw [← hn, ← hr]
    simp [forward_stages, observed_stage, FRAME_CIRS, FRAME_OBSERVED,
      FRAME_JNOW, FRAME_VIEW]
  rw [convert_frame_cirs_observed _ _ _ _ _ rfl]
  simp only [Option.getD, hs]
  rfl

section Generic

variable {α : Type} [Add α] [Sub α] [Mul α] [Div α] [Neg α] [Zero α] [One α]
  [OfScientific α]

/-- C10. An Astrometric origin is the ICRF origin preceded by
`astrometric_to_apparent`: when that function returns `p` on `v` (and `v`, `p`
pass the input NaN assertion), converting `v` from Astrometric to any `dest`
from ICRF to View is converting `p` from ICRF to `dest`; to ICRF itself it
returns `p`. -/
theorem C10_astrometric_origin (K : Kernel α) (core : Observer α)
    (obs : Option (Observer α)) (dest : Int) (f : Bool) (v p : Vec3 α)
    (hd0 : FRAME_ICRF ≤ dest) (hd1 : dest ≤ FRAME_VIEW)
    (hv : K.isnan (nan_probe v) = false)
    (ha : astrometric_to_apparent K (obs.getD core) v f = .ok p)
    (hp : K.isnan (nan_probe p) = false) :
    convert_frame K core obs FRAME_ASTROM dest f v
      = convert_frame K core obs FRAME_ICRF dest f p ∧
    convert_frame K core obs FRAME_ASTROM FRAME_ICRF f v = .ok (0, p) := by
  have hcases : dest = 0 ∨ dest = 1 ∨ dest = 2 ∨ dest = 3 ∨ dest = 4 := by
    unfold FRAME_ICRF at hd0
    unfold FRAME_VIEW at hd1
    omega
  constructor
  · rcases hcases with h | h | h | h | h <;> subst h <;>
      simp [convert_frame, convert_frame_forward, forward_stages,
        FRAME_ICRF, FRAME_JNOW, FRAME_NDC, FRAME_ASTROM, FRAME_CIRS,
        FRAME_OBSERVED, FRAME_VIEW, vec3_copy, hv, hp, ha]
  · simp [convert_frame, convert_frame_forward, forward_stages,
      FRAME_ICRF, FRAME_JNOW, FRAME_NDC, FRAME_ASTROM, FRAME_CIRS,
      FRAME_OBSERVED, FRAME_VIEW, vec3_copy, hv, hp, ha]

end Generic

/-- Witness of C10: the finite-distance vector `(3, 3, 0)`, which
`astrometric_to_apparent` moves to `(3, 4, 0)` for `ratObserver`. -/
theorem C10_astrometric_origin_witness :
    (FRAME_ICRF ≤ FRAME_OBSERVED ∧ FRAME_OBSERVED ≤ FRAME_VIEW ∧
      ratKernel.isnan (nan_probe (⟨3, 3, 0⟩ : Vec3 ℚ)) = false ∧
      astrometric_to_apparent ratKernel ratObserver ⟨3, 3, 0⟩ false
        = .ok ⟨3, 4, 0⟩ ∧
      ratKernel.isnan (nan_probe (⟨3, 4, 0⟩ : Vec3 ℚ)) = false) ∧
    convert_frame ratKernel ratObserver none FRAME_ASTROM FRAME_OBSERVED false
        ⟨3, 3, 0⟩
      = convert_frame ratKernel ratObserver none FRAME_ICRF FRAME_OBSERVED false
          ⟨3, 4, 0⟩ := by
  have ha : astrometric_to_apparent ratKernel ratObserver ⟨3, 3, 0⟩ false
      = .ok ⟨3, 4, 0⟩ := by
    simp only [astrometric_to_apparent, eraCp, eraPpp, eraPmp, vec3_norm,
      vec3_norm2, vec3_mul, ratKernel, ratObserver]
    norm_num [ratSqrt_twentyfive]
  exact ⟨⟨by decide, by decide, rfl, ha, rfl⟩,
    (C10_astrometric_origin ratKernel ratObserver none FRAME_OBSERVED false
      ⟨3, 3, 0⟩ ⟨3, 4, 0⟩ (by decide) (by decide) rfl ha rfl).1⟩

section Ideal

variable {α : Type} [Field α]

/-- The light-time step of the code is the formula `q - k ‖q‖ w`, and it
keeps the velocity. -/
theorem correct_speed_of_light_eq (K : Kernel α) (q : PV α) :
    correct_speed_of_light K q = ⟨spec_light_time_position K q.p q.v, q.v⟩ := by
  simp only [correct_speed_of_light, spec_light_time_position,
    spec_light_time_factor, vec3_addk, eraPmp, vec3_mul, PV.mk.injEq,
    Vec3.mk.injEq, and_true]
  refine ⟨?_, ?_, ?_⟩ <;> ring

/-- C11. With `at_inf = false`, `position_to_apparent` returns
`(q - k ‖q‖ w, w)` where `(q, w)` is the input re-origined (Barycentric:
`in - obs_pvb`; Heliocentric: `in + sun_pvb - obs_pvb`; Geocentric:
`in - obs_pvg`) and `k = DAU / LIGHT_YEAR_IN_METER * DJY`; the velocity is
the re-origined one.  The observer's own barycentric pv maps to the null
pv. -/
theorem C11_position_to_apparent_finite (K : Kernel α) (obs : Observer α)
    (inp : PV α) :
    position_to_apparent K obs ORIGIN_BARYCENTRIC false inp
      = .ok ⟨spec_light_time_position K (eraPvmpv inp obs.obs_pvb).p
              (eraPvmpv inp obs.obs_pvb).v,
             (eraPvmpv inp obs.obs_pvb).v⟩ ∧
    position_to_apparent K obs ORIGIN_HELIOCENTRIC false inp
      = .ok ⟨spec_light_time_position K
              (eraPvmpv (eraPvppv inp obs.sun_pvb) obs.obs_pvb).p
              (eraPvmpv (eraPvppv inp obs.sun_pvb) obs.obs_pvb).v,
             (eraPvmpv (eraPvppv inp obs.sun_pvb) obs.obs_pvb).v⟩ ∧
    position_to_apparent K obs ORIGIN_GEOCENTRIC false inp
      = .ok ⟨spec_light_time_position K (eraPvmpv inp obs.obs_pvg).p
              (eraPvmpv inp obs.obs_pvg).v,
             (eraPvmpv inp obs.obs_pvg).v⟩ ∧
    position_to_apparent K obs ORIGIN_BARYCENTRIC false obs.obs_pvb
      = .ok ⟨⟨0, 0, 0⟩, ⟨0, 0, 0⟩⟩ := by
  refine ⟨?_, ?_, ?_, ?_⟩
  · simp [position_to_apparent, eraCpv, ORIGIN_BARYCENTRIC,
      correct_speed_of_light_eq]
  · simp [position_to_apparent, eraCpv, ORIGIN_BARYCENTRIC, ORIGIN_HELIOCENTRIC,
      correct_speed_of_light_eq]
  · simp [position_to_apparent, eraCpv, ORIGIN_BARYCENTRIC, ORIGIN_HELIOCENTRIC,
      ORIGIN_GEOCENTRIC, correct_speed_of_light_eq]
  · simp [position_to_apparent, eraCpv, ORIGIN_BARYCENTRIC,
      correct_speed_of_light_eq, spec_light_time_position, eraPvmpv, eraPmp,
      vec3_mul]

end Ideal

/-- With the standard values of the constants the factor `k` is the
astronomical unit divided by the distance light travels in a day. -/
theorem ratKernel_light_time_factor :
    spec_light_time_factor ratKernel = 149597870700 / (299792458 * 86400) := by
  norm_num [spec_light_time_factor, ratKernel]

section Generic

variable {α : Type} [Add α] [Sub α] [Mul α] [Div α] [Neg α] [Zero α] [One α]
  [OfScientific α]

/-- C12 (amended). With `at_inf = false`, every origin tag other than
Barycentric, Heliocentric and Geocentric makes `position_to_apparent` fail the
`assert(0)` of its `switch`, for every input.  With `at_inf = true` the
origin tag is not examined: the outcome is the same for every tag. -/
theorem C12_origin_checked_when_finite (K : Kernel α) (obs : Observer α)
    (origin : Int) (inp : PV α)
    (h0 : origin ≠ ORIGIN_BARYCENTRIC) (h1 : origin ≠ ORIGIN_HELIOCENTRIC)
    (h2 : origin ≠ ORIGIN_GEOCENTRIC) :
    position_to_apparent K obs origin false inp = .error .apparent_origin ∧
    (∀ origin2 : Int, position_to_apparent K obs origin true inp
      = position_to_apparent K obs origin2 true inp) := by
  constructor
  · simp [position_to_apparent, h0, h1, h2]
  · intro origin2
    simp [position_to_apparent]

end Generic

/-- Witness of C12: the ObserverCentric tag with a finite-distance input. -/
theorem C12_origin_checked_when_finite_witness :
    (ORIGIN_OBSERVERCENTRIC ≠ ORIGIN_BARYCENTRIC ∧
      ORIGIN_OBSERVERCENTRIC ≠ ORIGIN_HELIOCENTRIC ∧
      ORIGIN_OBSERVERCENTRIC ≠ ORIGIN_GEOCENTRIC) ∧
    position_to_apparent ratKernel ratObserver ORIGIN_OBSERVERCENTRIC false
      ⟨⟨1, 2, 3⟩, ⟨0, 0, 0⟩⟩ = .error .apparent_origin :=
  ⟨⟨by decide, by decide, by decide⟩,
   (C12_origin_checked_when_finite ratKernel ratObserver ORIGIN_OBSERVERCENTRIC
      ⟨⟨1, 2, 3⟩, ⟨0, 0, 0⟩⟩ (by decide) (by decide) (by decide)).1⟩

/-- C12, counterexample: with `at_inf = true` the ObserverCentric tag and the
out-of-range tag 7 both return a result on the unit direction `(1, 0, 0)`. -/
theorem C12_counterexample :
    position_to_apparent ratKernel ratObserver ORIGIN_OBSERVERCENTRIC true
      ⟨⟨1, 0, 0⟩, ⟨0, 0, 0⟩⟩ = .ok ⟨⟨1, 0, 0⟩, ⟨0, 0, 0⟩⟩ ∧
    position_to_apparent ratKernel ratObserver 7 true
      ⟨⟨1, 0, 0⟩, ⟨0, 0, 0⟩⟩ = .ok ⟨⟨1, 0, 0⟩, ⟨0, 0, 0⟩⟩ := by
  constructor <;>
    simp [position_to_apparent, eraCpv, ratKernel, vec3_norm, vec3_norm2,
      ratSqrt_one]

/-- C13. The unit-length assertion of `position_to_apparent` has no
tolerance: the direction `(1 + 1e-11, 0, 0)`, whose norm is within 1e-10 of
one, aborts at `assert(vec3_norm(out[0]) == 1.0)`, while
`astrometric_to_apparent`, which applies the same deflection and aberration
to it behind a squared-norm check with tolerance 1e-10, returns a result. -/
theorem C13_apparent_unit_check_is_exact :
    |vec3_norm ratKernel (⟨1 + 1 / 100000000000, 0, 0⟩ : Vec3 ℚ) - 1|
      ≤ 0.0000000001 ∧
    position_to_apparent ratKernel ratObserver ORIGIN_BARYCENTRIC true
      ⟨⟨1 + 1 / 100000000000, 0, 0⟩, ⟨0, 0, 0⟩⟩ = .error .apparent_unit ∧
    astrometric_to_apparent ratKernel ratObserver
      ⟨1 + 1 / 100000000000, 0, 0⟩ true
      = .ok ⟨1 + 1 / 100000000000, 0, 0⟩ := by
  have hn : vec3_norm ratKernel (⟨1 + 1 / 100000000000, 0, 0⟩ : Vec3 ℚ)
      = 1 + 1 / 100000000000 := by
    have h := ratSqrt_mul_self (1 + 1 / 100000000000) (by norm_num)
    have e : (1 + 1 / 100000000000 : ℚ) * (1 + 1 / 100000000000) + 0 * 0 + 0 * 0
        = (1 + 1 / 100000000000) * (1 + 1 / 100000000000) := by ring
    simp only [vec3_norm, vec3_norm2, ratKernel, e, h]
  have hu : unit_check ratKernel (⟨1 + 1 / 100000000000, 0, 0⟩ : Vec3 ℚ)
      = true := by
    have e : vec3_norm2 (⟨1 + 1 / 100000000000, 0, 0⟩ : Vec3 ℚ) - 1
        = 200000000001 / 10000000000000000000000 := by
      norm_num [vec3_norm2]
    simp only [unit_check, ratKernel, e]
    rw [abs_of_pos (by norm_num)]
    norm_num
  refine ⟨?_, ?_, ?_⟩
  · rw [hn]
    have e : (1 : ℚ) + 1 / 100000000000 - 1 = 1 / 100000000000 := by norm_num
    rw [e, abs_of_pos (by norm_num)]
    norm_num
  · have hf : ratKernel.feq (1 + 1 / 100000000000 : ℚ) 1 = false := by
      simp [ratKernel]
    simp only [position_to_apparent, eraCpv, hn, hf]
    rfl
  · have hab : ∀ (p e v : Vec3 ℚ) (a b c : ℚ),
        ratKernel.eraAb (ratKernel.eraLdsun p e a) v b c = p :=
      fun _ _ _ _ _ _ => rfl
    simp only [astrometric_to_apparent, eraCp, hab, hu, if_true]

section Ideal

variable {α : Type} [Field α]

/-- Subtracting a vector and adding it back gives the vector. -/
theorem eraPpp_eraPmp_cancel (v e : Vec3 α) : eraPpp (eraPmp v e) e = v := by
  obtain ⟨x, y, z⟩ := v
  simp [eraPpp, eraPmp]

/-- The three origins `position_to_astrometric` accepts: the velocity put
into the light-time step is the re-origined velocity plus Earth's, and the
velocity returned is the re-origined one. -/
theorem position_to_astrometric_ok (K : Kernel α) (obs : Observer α)
    (origin : Int) (inp q : PV α)
    (h : (origin = ORIGIN_BARYCENTRIC ∧ q = eraPvmpv inp obs.earth_pvb) ∨
      (origin = ORIGIN_HELIOCENTRIC ∧
        q = eraPvmpv (eraPvppv inp obs.sun_pvb) obs.earth_pvb) ∨
      (origin = ORIGIN_GEOCENTRIC ∧ q = inp)) :
    position_to_astrometric K obs origin inp
      = .ok ⟨spec_light_time_position K q.p (eraPpp q.v obs.earth_pvb.v),
             q.v⟩ := by
  rcases h with ⟨ho, hq⟩ | ⟨ho, hq⟩ | ⟨ho, hq⟩ <;> subst ho <;> subst hq <;>
    simp [position_to_astrometric, eraCpv, eraCp, ORIGIN_BARYCENTRIC,
      ORIGIN_HELIOCENTRIC, ORIGIN_GEOCENTRIC, correct_speed_of_light_eq]

/-- C14. From a Barycentric origin `position_to_astrometric` returns the
position `(p - E_p) - k ‖p - E_p‖ v` with `v` the velocity of the input and
`k = DAU / LIGHT_YEAR_IN_METER * DJY`, and the velocity `v - E_v`; the
position is the same whatever Earth's velocity and the observer's pv are; and
Earth's own barycentric pv maps to the null pv (for `sqrt(0) = 0`). -/
theorem C14_barycentric_to_astrometric (K : Kernel α) (obs : Observer α)
    (inp : PV α) :
    position_to_astrometric K obs ORIGIN_BARYCENTRIC inp
      = .ok ⟨spec_light_time_position K (eraPmp inp.p obs.earth_pvb.p) inp.v,
             eraPmp inp.v obs.earth_pvb.v⟩ ∧
    (∀ (ev : Vec3 α) (ob : PV α),
      (position_to_astrometric K
          { obs with earth_pvb := ⟨obs.earth_pvb.p, ev⟩, obs_pvb := ob }
          ORIGIN_BARYCENTRIC inp).map PV.p
        = (position_to_astrometric K obs ORIGIN_BARYCENTRIC inp).map PV.p) ∧
    (K.sqrt 0 = 0 →
      position_to_astrometric K obs ORIGIN_BARYCENTRIC obs.earth_pvb
        = .ok ⟨⟨0, 0, 0⟩, ⟨0, 0, 0⟩⟩) := by
  have main : ∀ o : Observer α,
      position_to_astrometric K o ORIGIN_BARYCENTRIC inp
        = .ok ⟨spec_light_time_position K (eraPmp inp.p o.earth_pvb.p) inp.v,
               eraPmp inp.v o.earth_pvb.v⟩ := by
    intro o
    rw [position_to_astrometric_ok K o ORIGIN_BARYCENTRIC inp
      (eraPvmpv inp o.earth_pvb) (Or.inl ⟨rfl, rfl⟩)]
    simp [eraPvmpv, eraPpp_eraPmp_cancel]
  refine ⟨main obs, fun ev ob => ?_, fun hs => ?_⟩
  · rw [main, main]
    simp [Except.map]
  · rw [position_to_astrometric_ok K obs ORIGIN_BARYCENTRIC obs.earth_pvb
      (eraPvmpv obs.earth_pvb obs.earth_pvb) (Or.inl ⟨rfl, rfl⟩)]
    simp [eraPvmpv, eraPmp, eraPpp, spec_light_time_position, vec3_mul,
      vec3_norm, vec3_norm2, hs]

end Ideal

/-- Witness of C14: the rational square root of 0 is 0, and Earth's own pv
maps to the null pv. -/
theorem C14_barycentric_to_astrometric_witness :
    ratKernel.sqrt 0 = 0 ∧
    position_to_astrometric ratKernel ratObserver ORIGIN_BARYCENTRIC
      ratObserver.earth_pvb = .ok ⟨⟨0, 0, 0⟩, ⟨0, 0, 0⟩⟩ :=
  ⟨ratSqrt_zero,
   (C14_barycentric_to_astrometric ratKernel ratObserver
      ratObserver.earth_pvb).2.2 ratSqrt_zero⟩

section Generic

variable {α : Type} [Add α] [Sub α] [Mul α] [Div α] [Neg α] [Zero α] [One α]
  [OfScientific α]

/-- C15. On `ORIGIN_OBSERVERCENTRIC` the code aborts: the `case` has no
`break` and runs into `default: assert(0)`, for every observer and input. -/
theorem C15_observercentric_aborts (K : Kernel α) (obs : Observer α)
    (inp : PV α) :
    position_to_astrometric K obs ORIGIN_OBSERVERCENTRIC inp
      = .error .astrometric_origin := by
  simp [position_to_astrometric, ORIGIN_OBSERVERCENTRIC, ORIGIN_BARYCENTRIC,
    ORIGIN_HELIOCENTRIC, ORIGIN_GEOCENTRIC]

end Generic

section Ideal

variable {α : Type} [LinearOrderedField α]

end Ideal

section Generic

variable {α : Type} [Add α] [Sub α] [Mul α] [Div α] [Neg α] [Zero α] [One α]
  [OfScientific α]

end Generic

/-- C17. The finite branch of the code adds the observer-minus-Earth position
instead of subtracting it.  For `ratObserver`, which stands at `(0, 1, 0)` from
the centre of the Earth, and the geocentric vector `(3, 3, 0)`: the code
normalises `(3, 3, 0) + (0, 1, 0) = (3, 4, 0)` and (aberration being the
identity here) returns it, the claim's vector is `(3, 2, 0)`, and `(3, 2, 0)`
is also where `position_to_apparent` re-origins the same object given by its
barycentric position. -/
theorem C17_observer_offset_is_added :
    astrometric_to_apparent ratKernel ratObserver ⟨3, 3, 0⟩ false
      = .ok ⟨3, 4, 0⟩ ∧
    eraPmp (eraPpp (⟨3, 3, 0⟩ : Vec3 ℚ) ratObserver.obs_pvb.p)
      ratObserver.earth_pvb.p = ⟨3, 4, 0⟩ ∧
    eraPmp (⟨3, 3, 0⟩ : Vec3 ℚ)
      (eraPmp ratObserver.obs_pvb.p ratObserver.earth_pvb.p) = ⟨3, 2, 0⟩ ∧
    (eraPvmpv ⟨eraPpp ⟨3, 3, 0⟩ ratObserver.earth_pvb.p, ⟨0, 0, 0⟩⟩
      ratObserver.obs_pvb).p = ⟨3, 2, 0⟩ := by
  refine ⟨?_, ?_, ?_, ?_⟩
  · simp only [astrometric_to_apparent, eraCp, eraPpp, eraPmp, vec3_norm,
      vec3_norm2, vec3_mul, ratKernel, ratObserver]
    norm_num [ratSqrt_twentyfive]
  · simp only [eraPpp, eraPmp, ratObserver]
    norm_num
  · simp only [eraPmp, ratObserver]
    norm_num
  · simp only [eraPvmpv, eraPpp, eraPmp, ratObserver]
    norm_num

section Generic

variable {α : Type} [Add α] [Sub α] [Mul α] [Div α] [Neg α] [Zero α] [One α]
  [OfScientific α]

/-- C18 (amended). `convert_frame` checks frame tags from above only: it
fails its first assertion whenever `origin` or `dest` is NDC or more (so for
every tag above Window), and a tag below Astrometric is not rejected: from
such an origin to itself, to any tag up to Astrometric or to ICRF, the call
returns 0 and the input unchanged (when the input passes the NaN
assertion). -/
theorem C18_tags_checked_from_above_only (K : Kernel α) (core : Observer α)
    (obs : Option (Observer α)) (origin dest : Int) (f : Bool) (v : Vec3 α) :
    (FRAME_NDC ≤ origin ∨ FRAME_NDC ≤ dest →
      convert_frame K core obs origin dest f v = .error .ndc) ∧
    (origin < FRAME_ASTROM → origin ≤ dest → dest ≤ FRAME_ICRF →
      K.isnan (nan_probe v) = false →
      convert_frame K core obs origin dest f v = .ok (0, v)) := by
  constructor
  · intro h
    have : ¬ (dest < FRAME_NDC ∧ origin < FRAME_NDC) := by omega
    simp [convert_frame, this]
  · intro h1 h2 h3 hv
    unfold FRAME_ASTROM at h1
    unfold FRAME_ICRF at h3
    have ho : origin < FRAME_NDC := by unfold FRAME_NDC; omega
    have hd : dest < FRAME_NDC := by unfold FRAME_NDC; omega
    have ha : origin ≠ FRAME_ASTROM := by unfold FRAME_ASTROM; omega
    have hc : ¬ (FRAME_CIRS ≤ dest) := by unfold FRAME_CIRS; omega
    have hj : dest ≠ FRAME_JNOW := by unfold FRAME_JNOW; omega
    have hob : ¬ (FRAME_OBSERVED ≤ dest) := by unfold FRAME_OBSERVED; omega
    have hvw : ¬ (FRAME_VIEW ≤ dest) := by unfold FRAME_VIEW; omega
    have hlt : ¬ (dest < origin) := by omega
    by_cases hgt : dest > origin
    · simp [convert_frame, convert_frame_forward, forward_stages, ho, hd, ha,
        hc, hj, hob, hvw, hgt, hv, vec3_copy]
    · simp [convert_frame, ho, hd, hgt, hlt, hv, vec3_copy]

end Generic

/-- Witness of C18: the tag 7 as destination aborts; the tag -2 as origin
with ICRF as destination returns the input. -/
theorem C18_tags_checked_from_above_only_witness :
    ((FRAME_NDC ≤ FRAME_ICRF ∨ FRAME_NDC ≤ 7) ∧
      (-2 : Int) < FRAME_ASTROM ∧ (-2 : Int) ≤ FRAME_ICRF ∧
      FRAME_ICRF ≤ FRAME_ICRF ∧
      ratKernel.isnan (nan_probe (⟨1, 2, 3⟩ : Vec3 ℚ)) = false) ∧
    convert_frame ratKernel ratObserver none FRAME_ICRF 7 false ⟨1, 2, 3⟩
      = .error .ndc ∧
    convert_frame ratKernel ratObserver none (-2) FRAME_ICRF false ⟨1, 2, 3⟩
      = .ok (0, ⟨1, 2, 3⟩) :=
  ⟨⟨Or.inr (by decide), by decide, by decide, by decide, rfl⟩,
   (C18_tags_checked_from_above_only ratKernel ratObserver none FRAME_ICRF 7
      false ⟨1, 2, 3⟩).1 (Or.inr (by decide)),
   (C18_tags_checked_from_above_only ratKernel ratObserver none (-2) FRAME_ICRF
      false ⟨1, 2, 3⟩).2 (by decide) (by decide) (by decide) rfl⟩

/-- C18, counterexample: the tag -2, which is no frame, is accepted as
origin: the conversion to ICRF returns 0 and the input. -/
theorem C18_counterexample :
    convert_frame ratKernel ratObserver none (-2) FRAME_ICRF false ⟨1, 2, 3⟩
      = .ok (0, ⟨1, 2, 3⟩) := by
  simp [convert_frame, convert_frame_forward, forward_stages, FRAME_ICRF,
    FRAME_NDC, FRAME_ASTROM, FRAME_CIRS, FRAME_JNOW, FRAME_OBSERVED, FRAME_VIEW,
    vec3_copy, ratKernel]

section Ideal

variable {α : Type} [Field α]

/-- C20 (amended). In `position_to_astrometric` the velocity multiplied by the
light-time factor is the re-origined velocity with Earth's velocity added
back: for the re-origined pv `(q, w)` of an accepted origin the corrected
position is `q - k ‖q‖ (w + earth_pvb[1])`, and for a Barycentric input
`(p, v)` that velocity is `v` itself, the object's own barycentric
velocity. -/
theorem C20_light_time_velocity (K : Kernel α) (obs : Observer α)
    (origin : Int) (inp q : PV α)
    (h : (origin = ORIGIN_BARYCENTRIC ∧ q = eraPvmpv inp obs.earth_pvb) ∨
      (origin = ORIGIN_HELIOCENTRIC ∧
        q = eraPvmpv (eraPvppv inp obs.sun_pvb) obs.earth_pvb) ∨
      (origin = ORIGIN_GEOCENTRIC ∧ q = inp)) :
    (position_to_astrometric K obs origin inp).map PV.p
      = .ok (spec_light_time_position K q.p (eraPpp q.v obs.earth_pvb.v)) ∧
    eraPpp (eraPvmpv inp obs.earth_pvb).v obs.earth_pvb.v = inp.v := by
  constructor
  · rw [position_to_astrometric_ok K obs origin inp q h]
    rfl
  · simp [eraPvmpv, eraPpp_eraPmp_cancel]

end Ideal

/-- Witness of C20: the object at `(3, 4, 0)` from the centre of the Earth,
moving with barycentric velocity `(1, 0, 0)`. -/
theorem C20_light_time_velocity_witness :
    ((ORIGIN_BARYCENTRIC = ORIGIN_BARYCENTRIC ∧
        (⟨⟨3, 4, 0⟩, ⟨203 / 200, -3 / 500, -1 / 400⟩⟩ : PV ℚ)
          = eraPvmpv ⟨⟨17 / 5, 24 / 5, 7 / 20⟩, ⟨1, 0, 0⟩⟩ ratObserver.earth_pvb)) ∧
    (position_to_astrometric ratKernel ratObserver ORIGIN_BARYCENTRIC
        ⟨⟨17 / 5, 24 / 5, 7 / 20⟩, ⟨1, 0, 0⟩⟩).map PV.p
      = .ok (spec_light_time_position ratKernel ⟨3, 4, 0⟩
          (eraPpp ⟨203 / 200, -3 / 500, -1 / 400⟩ ratObserver.earth_pvb.v)) := by
  have hq : (⟨⟨3, 4, 0⟩, ⟨203 / 200, -3 / 500, -1 / 400⟩⟩ : PV ℚ)
      = eraPvmpv ⟨⟨17 / 5, 24 / 5, 7 / 20⟩, ⟨1, 0, 0⟩⟩ ratObserver.earth_pvb := by
    simp only [eraPvmpv, eraPmp, ratObserver]
    norm_num
  exact ⟨⟨rfl, hq⟩,
    (C20_light_time_velocity ratKernel ratObserver ORIGIN_BARYCENTRIC
      ⟨⟨17 / 5, 24 / 5, 7 / 20⟩, ⟨1, 0, 0⟩⟩
      ⟨⟨3, 4, 0⟩, ⟨203 / 200, -3 / 500, -1 / 400⟩⟩ (Or.inl ⟨rfl, hq⟩)).1⟩

/-- C20, counterexample: for the object at `q = (3, 4, 0)` from the centre of
the Earth with barycentric velocity `v = (1, 0, 0)`, the code returns the
position `q - k ‖q‖ v`, which is not `q - k ‖q‖ (v - earth_pvb[1])`. -/
theorem C20_counterexample :
    (position_to_astrometric ratKernel ratObserver ORIGIN_BARYCENTRIC
        ⟨⟨17 / 5, 24 / 5, 7 / 20⟩, ⟨1, 0, 0⟩⟩).map PV.p
      = .ok (spec_light_time_position ratKernel ⟨3, 4, 0⟩ ⟨1, 0, 0⟩) ∧
    spec_light_time_position ratKernel ⟨3, 4, 0⟩ ⟨1, 0, 0⟩
      ≠ spec_light_time_position ratKernel ⟨3, 4, 0⟩
          (eraPmp ⟨1, 0, 0⟩ ratObserver.earth_pvb.v) := by
  constructor
  · rw [position_to_astrometric_ok ratKernel ratObserver ORIGIN_BARYCENTRIC
      ⟨⟨17 / 5, 24 / 5, 7 / 20⟩, ⟨1, 0, 0⟩⟩
      (eraPvmpv ⟨⟨17 / 5, 24 / 5, 7 / 20⟩, ⟨1, 0, 0⟩⟩ ratObserver.earth_pvb)
      (Or.inl ⟨rfl, rfl⟩)]
    simp only [eraPvmpv, eraPpp_eraPmp_cancel, Except.map]
    congr 2
    simp only [eraPmp, ratObserver]
    norm_num
  · intro h
    have hy := congrArg Vec3.y h
    have hn : vec3_norm ratKernel (⟨3, 4, 0⟩ : Vec3 ℚ) = 5 := by
      simp only [vec3_norm, vec3_norm2, ratKernel]
      rw [← ratSqrt_twentyfive]
      norm_num
    simp only [spec_light_time_position, eraPmp, vec3_mul, hn,
      ratKernel_light_time_factor, ratObserver] at hy
    norm_num at hy

section Generic

variable {α : Type} [Add α] [Sub α] [Mul α] [Div α] [Neg α] [Zero α] [One α]
  [OfScientific α]

/-- C21. The velocity `position_to_astrometric` returns is the re-origined
velocity, saved before Earth's velocity is added for the light-time step and
restored after it: Barycentric `v - earth_pvb[1]`, Heliocentric
`v + sun_pvb[1] - earth_pvb[1]`, Geocentric `v`; this for every carrier, and
the same whatever the square root and the constants of the light-time step
are. -/
theorem C21_velocity_restored (K : Kernel α) (obs : Observer α) (inp : PV α) :
    (position_to_astrometric K obs ORIGIN_BARYCENTRIC inp).map PV.v
      = .ok (eraPmp inp.v obs.earth_pvb.v) ∧
    (position_to_astrometric K obs ORIGIN_HELIOCENTRIC inp).map PV.v
      = .ok (eraPmp (eraPpp inp.v obs.sun_pvb.v) obs.earth_pvb.v) ∧
    (position_to_astrometric K obs ORIGIN_GEOCENTRIC inp).map PV.v
      = .ok inp.v ∧
    (∀ (K2 : Kernel α) (origin : Int),
      (position_to_astrometric K2 obs origin inp).map PV.v
        = (position_to_astrometric K obs origin inp).map PV.v) := by
  refine ⟨?_, ?_, ?_, ?_⟩
  · simp [position_to_astrometric, eraCpv, eraCp, eraPvmpv, ORIGIN_BARYCENTRIC,
      Except.map]
  · simp [position_to_astrometric, eraCpv, eraCp, eraPvmpv, eraPvppv,
      ORIGIN_BARYCENTRIC, ORIGIN_HELIOCENTRIC, Except.map]
  · simp [position_to_astrometric, eraCpv, eraCp, ORIGIN_BARYCENTRIC,
      ORIGIN_HELIOCENTRIC, ORIGIN_GEOCENTRIC, Except.map]
  · intro K2 origin
    unfold position_to_astrometric
    simp only [eraCpv, eraCp]
    split <;> simp [Except.map]

end Generic

section Ideal

variable {α : Type} [LinearOrderedField α]

/-- Rescaling by `k` multiplies the squared norm by `k * k`. -/
theorem vec3_norm2_vec3_mul (k : α) (w : Vec3 α) :
    vec3_norm2 (vec3_mul k w) = k * k * vec3_norm2 w := by
  simp only [vec3_norm2, vec3_mul]
  ring

/-- With an exact square root, rescaling the normalised `t` (of computed
norm not zero) through an aberration that keeps unit vectors unit gives a
vector of the norm of `t`. -/
theorem vec3_norm_aberrated (K : Kernel α) (a : Vec3 α) (em bm1 : α)
    (t : Vec3 α) (hs : SqrtAt K (vec3_norm2 t)) (hd0 : vec3_norm K t ≠ 0)
    (hab : ∀ u : Vec3 α, vec3_norm2 u = 1 →
      vec3_norm2 (K.eraAb u a em bm1) = 1) :
    vec3_norm K (vec3_mul (vec3_norm K t)
      (K.eraAb (vec3_mul (1 / vec3_norm K t) t) a em bm1)) = vec3_norm K t := by
  have hdd : vec3_norm K t * vec3_norm K t = vec3_norm2 t := hs.2
  have hu : vec3_norm2 (vec3_mul (1 / vec3_norm K t) t) = 1 := by
    rw [vec3_norm2_vec3_mul, ← hdd]
    field_simp
  have h1 := hab _ hu
  show K.sqrt _ = _
  rw [vec3_norm2_vec3_mul, h1, mul_one, hdd]
  rfl

end Ideal

section Generic

variable {α : Type} [Add α] [Sub α] [Mul α] [Div α] [Neg α] [Zero α] [One α]
  [OfScientific α]

/-- C22 (amended). In every interpretation of `double`, the finite branch of
`astrometric_to_apparent` returns `d * aberration(t * (1 / d))`, `t` being the
translated vector of the code and `d = ‖t‖` as the code computes it, with no
test on `d`.  Where the arithmetic is that of an ordered field and the square
root of `t.t` is exact, if the aberration returns a vector of squared norm 1
for every vector of squared norm 1, then the call returns a vector of norm `d`
for every `t` whose computed norm `d` is not zero. -/
theorem C22_aberration_keeps_distance (K : Kernel α) (obs : Observer α)
    (v t : Vec3 α) (d : α)
    (ht : t = eraPmp (eraPpp v obs.obs_pvb.p) obs.earth_pvb.p)
    (hd : d = vec3_norm K t) :
    astrometric_to_apparent K obs v false
      = .ok (vec3_mul d (K.eraAb (vec3_mul (1 / d) t) obs.astrom.v
          obs.astrom.em obs.astrom.bm1)) ∧
    (∀ (β : Type) [LinearOrderedField β] (E : Kernel β) (o : Observer β)
        (v1 t1 : Vec3 β) (d1 : β),
      t1 = eraPmp (eraPpp v1 o.obs_pvb.p) o.earth_pvb.p →
      d1 = vec3_norm E t1 → SqrtAt E (vec3_norm2 t1) → d1 ≠ 0 →
      (∀ u : Vec3 β, vec3_norm2 u = 1 →
        vec3_norm2 (E.eraAb u o.astrom.v o.astrom.em o.astrom.bm1) = 1) →
      ∃ out, astrometric_to_apparent E o v1 false = .ok out ∧
        vec3_norm E out = d1) := by
  constructor
  · subst ht hd
    simp [astrometric_to_apparent, eraCp]
  · intro β _ E o v1 t1 d1 ht1 hd1 hs hd0 hab
    subst ht1 hd1
    exact ⟨_, by simp [astrometric_to_apparent, eraCp],
      vec3_norm_aberrated E _ _ _ _ hs hd0 hab⟩

end Generic

/-- Witness of C22: the vector `(3, 3, 0)` seen by `ratObserver`, with an
aberration that exchanges the first two components: the translated vector is
`(3, 4, 0)`, of norm 5. -/
theorem C22_aberration_keeps_distance_witness :
    ((⟨3, 4, 0⟩ : Vec3 ℚ)
        = eraPmp (eraPpp ⟨3, 3, 0⟩ ratObserver.obs_pvb.p) ratObserver.earth_pvb.p ∧
      (5 : ℚ) = vec3_norm ratKernelSwap ⟨3, 4, 0⟩ ∧
      SqrtAt ratKernelSwap (vec3_norm2 (⟨3, 4, 0⟩ : Vec3 ℚ)) ∧
      (5 : ℚ) ≠ 0) ∧
    (astrometric_to_apparent ratKernelSwap ratObserver ⟨3, 3, 0⟩ false
      = .ok (vec3_mul 5 (ratKernelSwap.eraAb (vec3_mul (1 / 5) ⟨3, 4, 0⟩)
          ratObserver.astrom.v ratObserver.astrom.em ratObserver.astrom.bm1)) ∧
     vec3_norm ratKernelSwap
        (vec3_mul 5 (ratKernelSwap.eraAb (vec3_mul (1 / 5) ⟨3, 4, 0⟩)
          ratObserver.astrom.v ratObserver.astrom.em ratObserver.astrom.bm1))
      = 5) := by
  have h1 : (⟨3, 4, 0⟩ : Vec3 ℚ)
      = eraPmp (eraPpp ⟨3, 3, 0⟩ ratObserver.obs_pvb.p)
          ratObserver.earth_pvb.p := by
    simp only [eraPmp, eraPpp, ratObserver]
    norm_num
  have e25 : vec3_norm2 (⟨3, 4, 0⟩ : Vec3 ℚ) = 25 := by norm_num [vec3_norm2]
  have h2 : (5 : ℚ) = vec3_norm ratKernelSwap ⟨3, 4, 0⟩ := by
    simp only [vec3_norm, e25, ratKernelSwap, ratKernel, ratSqrt_twentyfive]
  have h3 : (5 : ℚ) ≠ 0 := by norm_num
  have h4 : SqrtAt ratKernelSwap (vec3_norm2 (⟨3, 4, 0⟩ : Vec3 ℚ)) := by
    simp only [SqrtAt, e25, ratKernelSwap, ratKernel, ratSqrt_twentyfive]
    norm_num
  have h5 : ∀ u : Vec3 ℚ, vec3_norm2 u = 1 →
      vec3_norm2 (ratKernelSwap.eraAb u ratObserver.astrom.v ratObserver.astrom.em
        ratObserver.astrom.bm1) = 1 := by
    intro u hu
    simp only [ratKernelSwap, vec3_norm2] at hu ⊢
    linarith
  have h := C22_aberration_keeps_distance ratKernelSwap ratObserver ⟨3, 3, 0⟩
    ⟨3, 4, 0⟩ 5 h1 h2
  obtain ⟨out, ho1, ho2⟩ := h.2 ℚ ratKernelSwap ratObserver ⟨3, 3, 0⟩
    ⟨3, 4, 0⟩ 5 h1 h2 h4 h3 h5
  have hc := h.1
  rw [hc] at ho1
  cases ho1
  exact ⟨⟨h1, h2, h4, h3⟩, hc, ho2⟩

/-- C22, counterexample: in the interpretation whose norm underflows (its
aberration is the identity, so it returns a unit vector for unit input), the
input `(0, -1, 2^-600)` seen by `xnumObserverAxis` gives the translated vector
`t = (0, 0, 2^-600)`, which is not null; its norm is computed as `d = 0`, and
the result `d * aberration(t * (1 / d))` is NaN in every component: its norm
is NaN, not `d`. -/
theorem C22_counterexample :
    eraPmp (eraPpp ⟨.num 0, .num (-1), .num (1 / 2 ^ 600)⟩ xnumObserverAxis.obs_pvb.p)
        xnumObserverAxis.earth_pvb.p
      = (⟨.num 0, .num 0, .num (1 / 2 ^ 600)⟩ : Vec3 XNum) ∧
    (⟨.num 0, .num 0, .num (1 / 2 ^ 600)⟩ : Vec3 XNum) ≠ ⟨.num 0, .num 0, .num 0⟩ ∧
    vec3_norm xnumKernelFlush ⟨.num 0, .num 0, .num (1 / 2 ^ 600)⟩ = .num 0 ∧
    astrometric_to_apparent xnumKernelFlush xnumObserverAxis
        ⟨.num 0, .num (-1), .num (1 / 2 ^ 600)⟩ false
      = .ok ⟨.nan, .nan, .nan⟩ ∧
    vec3_norm xnumKernelFlush ⟨.nan, .nan, .nan⟩ = .nan := by
  have ht : eraPmp (eraPpp ⟨.num 0, .num (-1), .num (1 / 2 ^ 600)⟩
        xnumObserverAxis.obs_pvb.p) xnumObserverAxis.earth_pvb.p
      = (⟨.num 0, .num 0, .num (1 / 2 ^ 600)⟩ : Vec3 XNum) := by
    simp only [eraPmp, eraPpp, xnumObserverAxis, XNum.ofPV, XNum.ofVec, ratObserver,
      XNum.num_add, XNum.num_sub]
    norm_num
  have hd : vec3_norm xnumKernelFlush ⟨.num 0, .num 0, .num (1 / 2 ^ 600)⟩
      = .num 0 := by
    simp only [vec3_norm, vec3_norm2, xnumKernelFlush, XNum.num_add,
      XNum.num_mul]
    norm_num
  refine ⟨ht, by simp, hd, ?_, rfl⟩
  simp only [astrometric_to_apparent, eraCp, Bool.false_eq_true, if_false, ht,
    hd]
  simp [vec3_mul, XNum.one_def, XNum.num_div, XNum.mul_nan, XNum.nan_mul,
    xnumKernelFlush, xnumKernel]

section Generic

variable {α : Type} [Add α] [Sub α] [Mul α] [Div α] [Neg α] [Zero α] [One α]
  [OfScientific α]

/-- Without NaN, a forward call below NDC is the forward path with the
return value 0. -/
theorem convert_frame_of_lt (K : Kernel α) (hnan : ∀ a, K.isnan a = false)
    (core : Observer α) (obs : Option (Observer α)) (origin dest : Int)
    (f : Bool) (v : Vec3 α) (h : origin < dest) (hd : dest < FRAME_NDC) :
    convert_frame K core obs origin dest f v
      = (convert_frame_forward K (obs.getD core) origin dest f v).map
          (fun p => (0, p)) := by
  have ho : origin < FRAME_NDC := by omega
  have hgt : dest > origin := h
  simp only [convert_frame, ho, hd, and_self, if_true, vec3_copy, hnan, hgt]
  cases convert_frame_forward K (obs.getD core) origin dest f v <;>
    simp [Except.map]

end Generic

section Ideal

variable {α : Type} [Field α]

/-- The stages compose at ICRF, CIRS and Observed. -/
theorem forward_stages_comp (K : Kernel α) (obs : Observer α)
    (origin mid dest : Int) (f : Bool) (p : Vec3 α)
    (ho : FRAME_ASTROM ≤ origin) (h1 : origin < mid) (h2 : mid < dest)
    (h3 : dest ≤ FRAME_VIEW)
    (hm : mid = FRAME_ICRF ∨ mid = FRAME_CIRS ∨ mid = FRAME_OBSERVED) :
    forward_stages K obs origin dest f p
      = forward_stages K obs mid dest f (forward_stages K obs origin mid f p) := by
  unfold FRAME_ASTROM at ho
  unfold FRAME_VIEW at h3
  rcases hm with hm | hm | hm <;> subst hm
  · unfold FRAME_ICRF at h1 h2
    have ho1 : origin = -1 := by omega
    subst ho1
    interval_cases dest <;>
      simp [forward_stages, FRAME_ICRF, FRAME_CIRS, FRAME_JNOW, FRAME_OBSERVED,
        FRAME_VIEW]
  · unfold FRAME_CIRS at h1 h2
    interval_cases origin <;> interval_cases dest <;>
      simp [forward_stages, FRAME_ICRF, FRAME_CIRS, FRAME_JNOW, FRAME_OBSERVED,
        FRAME_VIEW]
  · unfold FRAME_OBSERVED at h1 h2
    have hd4 : dest = 4 := by omega
    subst hd4
    interval_cases origin <;>
      simp [forward_stages, FRAME_ICRF, FRAME_CIRS, FRAME_JNOW, FRAME_OBSERVED,
        FRAME_VIEW] <;>
      (split <;> simp [mat3_mul_vec3, vec3_set])

/-- From Observed to View the stages are the product by `ro2v`. -/
theorem forward_stages_observed_view (K : Kernel α) (obs : Observer α)
    (f : Bool) (p : Vec3 α) :
    forward_stages K obs FRAME_OBSERVED FRAME_VIEW f p
      = mat3_mul_vec3 obs.ro2v p := by
  simp [forward_stages, FRAME_CIRS, FRAME_JNOW, FRAME_OBSERVED, FRAME_VIEW]

/-- C23. Without NaN and in field arithmetic, forward conversion composes at
the waypoints ICRF, CIRS and Observed: for frames `origin < mid < dest ≤ View`
with `mid` one of the three, converting from `origin` to `dest` is converting
from `origin` to `mid` and the result from `mid` to `dest` (an abort of the
first step being the abort of the whole); and for `origin` below Observed the
conversion to View is `ro2v` applied to the conversion to Observed. -/
theorem C23_forward_composes (K : Kernel α) (hnan : ∀ a, K.isnan a = false)
    (core : Observer α) (obs : Option (Observer α)) (origin : Int) (f : Bool)
    (v : Vec3 α) (ho : FRAME_ASTROM ≤ origin) :
    (∀ mid dest : Int, origin < mid → mid < dest → dest ≤ FRAME_VIEW →
      (mid = FRAME_ICRF ∨ mid = FRAME_CIRS ∨ mid = FRAME_OBSERVED) →
      convert_frame K core obs origin dest f v
        = (convert_frame K core obs origin mid f v).bind
            (fun r => convert_frame K core obs mid dest f r.2)) ∧
    (origin < FRAME_OBSERVED →
      convert_frame K core obs origin FRAME_VIEW f v
        = (convert_frame K core obs origin FRAME_OBSERVED f v).map
            (fun r => (0, mat3_mul_vec3 (obs.getD core).ro2v r.2))) := by
  have key : ∀ mid dest : Int, origin < mid → mid < dest → dest ≤ FRAME_VIEW →
      (mid = FRAME_ICRF ∨ mid = FRAME_CIRS ∨ mid = FRAME_OBSERVED) →
      convert_frame K core obs origin dest f v
        = (convert_frame K core obs origin mid f v).bind
            (fun r => (0, forward_stages K (obs.getD core) mid dest f r.2)
              |> Except.ok) := by
    intro mid dest h1 h2 h3 hm
    have hdn : dest < FRAME_NDC := by
      unfold FRAME_VIEW at h3; unfold FRAME_NDC; omega
    have hmn : mid < FRAME_NDC := by omega
    rw [convert_frame_of_lt K hnan core obs origin dest f v (by omega) hdn,
      convert_frame_of_lt K hnan core obs origin mid f v h1 hmn]
    unfold convert_frame_forward
    split
    · simp [Except.map, Except.bind]
    · rename_i p hp
      simp only [Except.map, Except.bind]
      rw [forward_stages_comp K (obs.getD core) origin mid dest f p ho h1 h2 h3 hm]
  constructor
  · intro mid dest h1 h2 h3 hm
    rw [key mid dest h1 h2 h3 hm]
    have hdn : dest < FRAME_NDC := by
      unfold FRAME_VIEW at h3; unfold FRAME_NDC; omega
    have hma : mid ≠ FRAME_ASTROM := by unfold FRAME_ASTROM at ho ⊢; omega
    congr 1
    funext r
    rw [convert_frame_of_lt K hnan core obs mid dest f r.2 h2 hdn,
      convert_frame_forward_of_ne K _ mid dest f r.2 hma]
    rfl
  · intro h
    rw [key FRAME_OBSERVED FRAME_VIEW h (by decide) le_rfl (Or.inr (Or.inr rfl))]
    cases convert_frame K core obs origin FRAME_OBSERVED f v <;>
      simp [Except.map, Except.bind, forward_stages_observed_view]

end Ideal

/-- Witness of C23: from ICRF to View through CIRS, and through Observed. -/
theorem C23_forward_composes_witness :
    (FRAME_ASTROM ≤ FRAME_ICRF ∧
      FRAME_ICRF < FRAME_CIRS ∧ FRAME_CIRS < FRAME_VIEW ∧
      FRAME_VIEW ≤ FRAME_VIEW ∧ FRAME_ICRF < FRAME_OBSERVED) ∧
    convert_frame ratKernel ratObserverAir none FRAME_ICRF FRAME_VIEW false
        ⟨3, 4, 0⟩
      = (convert_frame ratKernel ratObserverAir none FRAME_ICRF FRAME_CIRS false
          ⟨3, 4, 0⟩).bind
          (fun r => convert_frame ratKernel ratObserverAir none FRAME_CIRS
            FRAME_VIEW false r.2) ∧
    convert_frame ratKernel ratObserverAir none FRAME_ICRF FRAME_VIEW false
        ⟨3, 4, 0⟩
      = (convert_frame ratKernel ratObserverAir none FRAME_ICRF FRAME_OBSERVED
          false ⟨3, 4, 0⟩).map
          (fun r => (0, mat3_mul_vec3 ratObserverAir.ro2v r.2)) :=
  ⟨⟨by decide, by decide, by decide, by decide, by decide⟩,
   (C23_forward_composes ratKernel (fun _ => rfl) ratObserverAir none FRAME_ICRF
      false ⟨3, 4, 0⟩ (by decide)).1 FRAME_CIRS FRAME_VIEW (by decide)
      (by decide) (by decide) (Or.inr (Or.inl rfl)),
   (C23_forward_composes ratKernel (fun _ => rfl) ratObserverAir none FRAME_ICRF
      false ⟨3, 4, 0⟩ (by decide)).2 (by decide)⟩

section Generic

variable {α : Type} [Add α] [Sub α] [Mul α] [Div α] [Neg α] [Zero α] [One α]
  [OfScientific α]

end Generic

section Ideal

variable {α : Type} [LinearOrderedField α]

/-- In exact arithmetic a vector that passes `vec3_norm(p) == 1.0` passes the
squared-norm check as well. -/
theorem unit_check_of_norm_eq_one (K : Kernel α) (hK : K.Exact) (p : Vec3 α)
    (hs : SqrtAt K (vec3_norm2 p)) (h : K.feq (vec3_norm K p) 1 = true) :
    unit_check K p = true := by
  have h1 : vec3_norm K p = 1 := (hK.feq _ _).mp h
  have h2 : vec3_norm2 p = 1 := by
    have := hs.2
    unfold vec3_norm at h1
    rw [h1] at this
    simpa using this.symm
  rw [unit_check_iff K hK, h2]
  norm_num

end Ideal

section Generic

variable {α : Type} [Add α] [Sub α] [Mul α] [Div α] [Neg α] [Zero α] [One α]
  [OfScientific α]

/-- C25. With `at_inf = true`, `position_to_apparent` re-origins nothing: for
every origin tag and every input `(p, v)` that passes its unit check it
returns the position `aberration(deflection(p))` and the velocity `v`, and the
outcome is the same whatever `obs_pvb`, `obs_pvg`, `sun_pvb` and the tag are.
That position is the value of `astrometric_to_apparent(p, true)`: every value
that call returns is it, and the call does return it when `p` and it pass the
squared-norm checks. -/
theorem C25_apparent_at_infinity (K : Kernel α) (obs : Observer α)
    (origin : Int) (inp : PV α) (hu : K.feq (vec3_norm K inp.p) 1 = true) :
    position_to_apparent K obs origin true inp
      = .ok ⟨spec_deflect_then_aberrate K obs inp.p, inp.v⟩ ∧
    (∀ out, astrometric_to_apparent K obs inp.p true = .ok out →
      out = spec_deflect_then_aberrate K obs inp.p) ∧
    (unit_check K inp.p = true →
      unit_check K (spec_deflect_then_aberrate K obs inp.p) = true →
      astrometric_to_apparent K obs inp.p true
        = .ok (spec_deflect_then_aberrate K obs inp.p)) ∧
    (∀ (pvb pvg sun : PV α) (origin2 : Int),
      position_to_apparent K
          { obs with obs_pvb := pvb, obs_pvg := pvg, sun_pvb := sun }
          origin2 true inp
        = position_to_apparent K obs origin true inp) := by
  refine ⟨?_, fun out hout => ?_, fun h1 h2 => ?_, fun pvb pvg sun origin2 => ?_⟩
  · simp [position_to_apparent, eraCpv, hu, spec_deflect_then_aberrate]
  · unfold astrometric_to_apparent at hout
    simp only [eraCp] at hout
    split at hout
    · split at hout
      · split at hout
        · cases hout; rfl
        · cases hout
      · cases hout
    · rename_i hf
      exact absurd trivial hf
  · have h3 : unit_check K (K.eraAb (K.eraLdsun inp.p obs.astrom.eh obs.astrom.em)
        obs.astrom.v obs.astrom.em obs.astrom.bm1) = true := h2
    simp [astrometric_to_apparent, eraCp, h1, h3, spec_deflect_then_aberrate]
  · simp [position_to_apparent]

end Generic

/-- Witness of C25: the unit direction `(1, 0, 0)` with velocity `(1, 2, 3)`
under the ObserverCentric tag. -/
theorem C25_apparent_at_infinity_witness :
    ratKernel.feq (vec3_norm ratKernel (⟨1, 0, 0⟩ : Vec3 ℚ)) 1 = true ∧
    position_to_apparent ratKernel ratObserver ORIGIN_OBSERVERCENTRIC true
        ⟨⟨1, 0, 0⟩, ⟨1, 2, 3⟩⟩
      = .ok ⟨spec_deflect_then_aberrate ratKernel ratObserver ⟨1, 0, 0⟩,
             ⟨1, 2, 3⟩⟩ ∧
    astrometric_to_apparent ratKernel ratObserver ⟨1, 0, 0⟩ true
      = .ok (spec_deflect_then_aberrate ratKernel ratObserver ⟨1, 0, 0⟩) := by
  have hu : ratKernel.feq (vec3_norm ratKernel (⟨1, 0, 0⟩ : Vec3 ℚ)) 1 = true := by
    simp [ratKernel, vec3_norm, vec3_norm2, ratSqrt_one]
  have hs : SqrtAt ratKernel (vec3_norm2 (⟨1, 0, 0⟩ : Vec3 ℚ)) := by
    have e : vec3_norm2 (⟨1, 0, 0⟩ : Vec3 ℚ) = 1 := by norm_num [vec3_norm2]
    simp only [SqrtAt, e, ratKernel, ratSqrt_one]
    norm_num
  have h1 : unit_check ratKernel (⟨1, 0, 0⟩ : Vec3 ℚ) = true :=
    unit_check_of_norm_eq_one ratKernel ratKernel_exact _ hs hu
  have h := C25_apparent_at_infinity ratKernel ratObserver
    ORIGIN_OBSERVERCENTRIC ⟨⟨1, 0, 0⟩, ⟨1, 2, 3⟩⟩ hu
  exact ⟨hu, h.1, h.2.2.1 h1 h1⟩

section Ideal

variable {α : Type} [LinearOrderedField α]

/-- With an exact square root, the norm of the translated vector
`in + obs_pvb[0] - earth_pvb[0]` is zero exactly for
`in = earth_pvb[0] - obs_pvb[0]`. -/
theorem vec3_norm_translated_eq_zero_iff (K : Kernel α) (obs : Observer α)
    (v : Vec3 α)
    (hs : SqrtAt K (vec3_norm2 (eraPmp (eraPpp v obs.obs_pvb.p) obs.earth_pvb.p))) :
    vec3_norm K (eraPmp (eraPpp v obs.obs_pvb.p) obs.earth_pvb.p) = 0 ↔
      v = eraPmp obs.earth_pvb.p obs.obs_pvb.p := by
  have ht0 : eraPmp (eraPpp v obs.obs_pvb.p) obs.earth_pvb.p = ⟨0, 0, 0⟩ ↔
      v = eraPmp obs.earth_pvb.p obs.obs_pvb.p := by
    obtain ⟨x, y, z⟩ := v
    simp only [eraPmp, eraPpp, Vec3.mk.injEq]
    constructor
    · rintro ⟨h1, h2, h3⟩
      refine ⟨?_, ?_, ?_⟩ <;> linarith
    · rintro ⟨h1, h2, h3⟩
      refine ⟨?_, ?_, ?_⟩ <;> linarith
  rw [← ht0]
  constructor
  · intro hd0
    by_contra hne
    exact vec3_norm_ne_zero K _ hne hs hd0
  · intro h0
    have h2 := hs.2
    rw [h0] at h2 ⊢
    unfold vec3_norm
    simpa [vec3_norm2] using h2

end Ideal

section Generic

variable {α : Type} [Add α] [Sub α] [Mul α] [Div α] [Neg α] [Zero α] [One α]
  [OfScientific α]

/-- C26 (amended). The finite branch of `astrometric_to_apparent` has no zero
guard: in every interpretation of `double` and for every input it returns
`d * aberration(t * (1 / d))` with `t = in + obs_pvb[0] - earth_pvb[0]` and
`d = ‖t‖` as the code computes it, whereas the refraction stage of
`convert_frame` tests `dist == 0.0` and leaves with the null vector.  In the
arithmetic with NaN, at `in = earth_pvb[0] - obs_pvb[0]` the call returns the
NaN vector, where the refraction stage returns the null vector on the null
vector.  Where the arithmetic is that of an ordered field and the square root
of `t.t` is exact, the divisor `d` is zero exactly for
`in = earth_pvb[0] - obs_pvb[0]`. -/
theorem C26_no_zero_guard (K : Kernel α) (obs : Observer α) (v t : Vec3 α)
    (d : α) (ht : t = eraPmp (eraPpp v obs.obs_pvb.p) obs.earth_pvb.p)
    (hd : d = vec3_norm K t) :
    astrometric_to_apparent K obs v false
      = .ok (vec3_mul d (K.eraAb (vec3_mul (1 / d) t) obs.astrom.v
          obs.astrom.em obs.astrom.bm1)) ∧
    (∀ p : Vec3 α, K.feq (vec3_norm K (mat3_mul_vec3 obs.ri2h p)) 0 = true →
      observed_stage K obs false p = none) ∧
    (astrometric_to_apparent xnumKernel xnumObserver
        (eraPmp xnumObserver.earth_pvb.p xnumObserver.obs_pvb.p) false
      = .ok ⟨.nan, .nan, .nan⟩ ∧
     convert_frame xnumKernel xnumObserver none FRAME_CIRS FRAME_OBSERVED false
        ⟨0, 0, 0⟩ = .ok (0, ⟨0, 0, 0⟩)) ∧
    (∀ (β : Type) [LinearOrderedField β] (E : Kernel β) (o : Observer β)
        (v1 : Vec3 β),
      SqrtAt E (vec3_norm2 (eraPmp (eraPpp v1 o.obs_pvb.p) o.earth_pvb.p)) →
      (vec3_norm E (eraPmp (eraPpp v1 o.obs_pvb.p) o.earth_pvb.p) = 0 ↔
        v1 = eraPmp o.earth_pvb.p o.obs_pvb.p)) := by
  refine ⟨?_, fun p hp => ?_, ⟨?_, ?_⟩, fun β _ E o v1 hs => ?_⟩
  · subst ht hd
    simp [astrometric_to_apparent, eraCp]
  · simp [observed_stage, hp]
  · simp [astrometric_to_apparent, eraCp, eraPmp, eraPpp, vec3_norm, vec3_norm2,
      vec3_mul, xnumKernel, xnumObserver, XNum.ofPV, XNum.ofVec, ratObserver,
      XNum.num_add, XNum.num_sub, XNum.num_mul, XNum.num_div, XNum.one_def,
      XNum.nan_mul, XNum.mul_nan, ratSqrt_zero]
  · simp [convert_frame, convert_frame_forward, forward_stages, observed_stage,
      FRAME_CIRS, FRAME_OBSERVED, FRAME_NDC, FRAME_ASTROM, FRAME_JNOW,
      FRAME_VIEW, vec3_copy, nan_probe, mat3_mul_vec3, vec3_norm, vec3_norm2,
      vec3_set, xnumKernel, xnumObserver, XNum.ofMat, XNum.ofVec, ratObserver,
      XNum.num_add, XNum.num_mul, XNum.zero_def, ratSqrt_zero]
  · exact vec3_norm_translated_eq_zero_iff E o v1 hs

end Generic

/-- Witness of C26: the vector `(3, 3, 0)` seen by `ratObserver`, with
`t = (3, 4, 0)` and the divisor `d = 5`. -/
theorem C26_no_zero_guard_witness :
    ((⟨3, 4, 0⟩ : Vec3 ℚ)
        = eraPmp (eraPpp ⟨3, 3, 0⟩ ratObserver.obs_pvb.p) ratObserver.earth_pvb.p ∧
      (5 : ℚ) = vec3_norm ratKernel ⟨3, 4, 0⟩ ∧
      SqrtAt ratKernel (vec3_norm2
        (eraPmp (eraPpp ⟨3, 3, 0⟩ ratObserver.obs_pvb.p) ratObserver.earth_pvb.p))) ∧
    astrometric_to_apparent ratKernel ratObserver ⟨3, 3, 0⟩ false
      = .ok (vec3_mul 5 (ratKernel.eraAb (vec3_mul (1 / 5) ⟨3, 4, 0⟩)
          ratObserver.astrom.v ratObserver.astrom.em ratObserver.astrom.bm1)) ∧
    (vec3_norm ratKernel
        (eraPmp (eraPpp ⟨3, 3, 0⟩ ratObserver.obs_pvb.p) ratObserver.earth_pvb.p) = 0 ↔
      (⟨3, 3, 0⟩ : Vec3 ℚ)
        = eraPmp ratObserver.earth_pvb.p ratObserver.obs_pvb.p) := by
  have h1 : (⟨3, 4, 0⟩ : Vec3 ℚ)
      = eraPmp (eraPpp ⟨3, 3, 0⟩ ratObserver.obs_pvb.p)
          ratObserver.earth_pvb.p := by
    simp only [eraPmp, eraPpp, ratObserver]
    norm_num
  have e25 : vec3_norm2 (⟨3, 4, 0⟩ : Vec3 ℚ) = 25 := by norm_num [vec3_norm2]
  have h2 : (5 : ℚ) = vec3_norm ratKernel ⟨3, 4, 0⟩ := by
    simp only [vec3_norm, e25, ratKernel, ratSqrt_twentyfive]
  have h3 : SqrtAt ratKernel (vec3_norm2
      (eraPmp (eraPpp ⟨3, 3, 0⟩ ratObserver.obs_pvb.p)
        ratObserver.earth_pvb.p)) := by
    rw [← h1]
    simp only [SqrtAt, e25, ratKernel, ratSqrt_twentyfive]
    norm_num
  have h := C26_no_zero_guard ratKernel ratObserver ⟨3, 3, 0⟩ ⟨3, 4, 0⟩ 5 h1 h2
  exact ⟨⟨h1, h2, h3⟩, h.1, h.2.2.2 ℚ ratKernel ratObserver ⟨3, 3, 0⟩ h3⟩

/-- C26, counterexample: in the interpretation whose norm underflows, for
`xnumObserverAxis` (where `earth_pvb[0] - obs_pvb[0] = (0, -1, 0)`) the input
`(2^-600, -1, 0)` differs from `earth_pvb[0] - obs_pvb[0]`; the translated
vector is `(2^-600, 0, 0)`, its norm is computed as `d = 0`, the division
`1 / d` is a division by zero (NaN here), and the call returns the NaN
vector. -/
theorem C26_counterexample :
    eraPmp xnumObserverAxis.earth_pvb.p xnumObserverAxis.obs_pvb.p
      = (⟨.num 0, .num (-1), .num 0⟩ : Vec3 XNum) ∧
    (⟨.num (1 / 2 ^ 600), .num (-1), .num 0⟩ : Vec3 XNum)
      ≠ ⟨.num 0, .num (-1), .num 0⟩ ∧
    eraPmp (eraPpp ⟨.num (1 / 2 ^ 600), .num (-1), .num 0⟩ xnumObserverAxis.obs_pvb.p)
        xnumObserverAxis.earth_pvb.p
      = (⟨.num (1 / 2 ^ 600), .num 0, .num 0⟩ : Vec3 XNum) ∧
    vec3_norm xnumKernelFlush ⟨.num (1 / 2 ^ 600), .num 0, .num 0⟩ = .num 0 ∧
    (1 : XNum) / vec3_norm xnumKernelFlush ⟨.num (1 / 2 ^ 600), .num 0, .num 0⟩
      = .nan ∧
    astrometric_to_apparent xnumKernelFlush xnumObserverAxis
        ⟨.num (1 / 2 ^ 600), .num (-1), .num 0⟩ false
      = .ok ⟨.nan, .nan, .nan⟩ := by
  have he : eraPmp xnumObserverAxis.earth_pvb.p xnumObserverAxis.obs_pvb.p
      = (⟨.num 0, .num (-1), .num 0⟩ : Vec3 XNum) := by
    simp only [eraPmp, xnumObserverAxis, XNum.ofPV, XNum.ofVec, ratObserver,
      XNum.num_sub]
    norm_num
  have ht : eraPmp (eraPpp ⟨.num (1 / 2 ^ 600), .num (-1), .num 0⟩
        xnumObserverAxis.obs_pvb.p) xnumObserverAxis.earth_pvb.p
      = (⟨.num (1 / 2 ^ 600), .num 0, .num 0⟩ : Vec3 XNum) := by
    simp only [eraPmp, eraPpp, xnumObserverAxis, XNum.ofPV, XNum.ofVec, ratObserver,
      XNum.num_add, XNum.num_sub]
    norm_num
  have hd : vec3_norm xnumKernelFlush ⟨.num (1 / 2 ^ 600), .num 0, .num 0⟩
      = .num 0 := by
    simp only [vec3_norm, vec3_norm2, xnumKernelFlush, XNum.num_add,
      XNum.num_mul]
    norm_num
  have hdiv : (1 : XNum)
      / vec3_norm xnumKernelFlush ⟨.num (1 / 2 ^ 600), .num 0, .num 0⟩ = .nan := by
    rw [hd]
    simp [XNum.one_def, XNum.num_div]
  refine ⟨he, by simp, ht, hd, hdiv, ?_⟩
  simp only [astrometric_to_apparent, eraCp, Bool.false_eq_true, if_false, ht,
    hdiv]
  simp [vec3_mul, XNum.mul_nan, XNum.nan_mul, xnumKernelFlush, xnumKernel]

end SWE
